import Mathlib

/-!
# Verification of the deCentra social-network backend

Shallow embedding of `src/backend/src/lib.rs` (with `types.rs`, `auth.rs`,
`validation.rs`) and proofs about the social graph, the follow-request
workflow and the feed composer.

Modelling conventions:
* `Principal` is modelled as `Nat`; the anonymous principal is `0`.
  `UserId(p)` is a transparent wrapper in Rust, so user ids are `Nat` too.
* Rust `u64` counters use saturating arithmetic; we model them as `Nat`
  with explicit saturation at `2^64 - 1` where the source saturates.
* `BTreeMap` is modelled by `NMap`: a lookup function together with its
  finite domain (`Finset ℕ`).  `BTreeSet<UserId>` is `Finset ℕ`; iteration
  order of a B-tree is ascending, modelled by `Finset.sort (· ≤ ·)`.
* `ic_cdk::api::time()` is an ambient clock; every mutating operation takes
  the current time `now` as an explicit argument.  The caller principal is
  likewise an explicit argument.
* Rust strings are Lean `String`s.  `str::len` (UTF-8 byte count) is
  `String.utf8ByteSize`; `chars()` is `String.toList`.  Character class
  tests (`is_alphanumeric`, `to_lowercase`, whitespace trimming) use Lean's
  ASCII versions of the corresponding Unicode functions; this only affects
  which texts pass validation, which no claim depends on.
* The two `f64` ratio comparisons in the spam heuristics are modelled by
  the exact rational comparisons `10 * caps > 7 * total` and
  `2 * special > total`.
-/

namespace DeCentra

/-- Largest value of a Rust `u64`. -/
def U64MAX : Nat := 18446744073709551615

/-- Rust `u64::saturating_add(1)`. -/
def satSucc64 (n : Nat) : Nat := min (n + 1) U64MAX

/-- The anonymous principal (`Principal::anonymous()`). -/
def anonPrincipal : Nat := 0

/-! ## Finite maps keyed by `Nat` (model of `BTreeMap`) -/

/-- A finite map from `Nat` keys: a lookup function together with its
domain, the model of `BTreeMap<K, V>` for the `Nat`-encoded key types. -/
structure NMap (β : Type) : Type where
  find? : Nat → Option β
  dom : Finset ℕ
  mem_dom : ∀ k, k ∈ dom ↔ (find? k).isSome = true

namespace NMap

variable {β : Type}

/-- The empty map. -/
def empty : NMap β where
  find? := fun _ => none
  dom := ∅
  mem_dom := by intro k; simp

/-- `BTreeMap::insert`: add or replace the binding of `k`. -/
def insert (m : NMap β) (k : Nat) (v : β) : NMap β where
  find? := fun j => if j = k then some v else m.find? j
  dom := Insert.insert k m.dom
  mem_dom := by
    intro j
    by_cases h : j = k <;> simp [h, m.mem_dom]

/-- `BTreeMap::get_mut` followed by an in-place update: apply `f` to the
value bound to `k` when there is one, do nothing otherwise. -/
def modify (m : NMap β) (k : Nat) (f : β → β) : NMap β where
  find? := fun j => if j = k then (m.find? j).map f else m.find? j
  dom := m.dom
  mem_dom := by
    intro j
    by_cases h : j = k <;> simp [h, m.mem_dom]

/-- `BTreeMap::entry(k).or_default()` followed by an update `f` of the
entry: insert `f default` or replace the current value `v` by `f v`. -/
def upsert (m : NMap β) (k : Nat) (f : β → β) (dflt : β) : NMap β :=
  m.insert k (f ((m.find? k).getD dflt))

/-- `BTreeMap::contains_key`. -/
def contains (m : NMap β) (k : Nat) : Bool := (m.find? k).isSome

@[simp] theorem find?_empty (k : Nat) : (empty : NMap β).find? k = none := rfl

@[simp] theorem find?_insert (m : NMap β) (k v j) :
    (m.insert k v).find? j = if j = k then some v else m.find? j := rfl

@[simp] theorem find?_modify (m : NMap β) (k f j) :
    (m.modify k f).find? j = if j = k then (m.find? j).map f else m.find? j := rfl

@[simp] theorem dom_insert (m : NMap β) (k v) :
    (m.insert k v).dom = Insert.insert k m.dom := rfl

@[simp] theorem dom_modify (m : NMap β) (k f) :
    (m.modify k f).dom = m.dom := rfl

@[simp] theorem dom_empty : (empty : NMap β).dom = ∅ := rfl

theorem find?_upsert (m : NMap β) (k f dflt j) :
    (m.upsert k f dflt).find? j =
      if j = k then some (f ((m.find? k).getD dflt)) else m.find? j := rfl

theorem mem_dom_iff (m : NMap β) (k : Nat) :
    k ∈ m.dom ↔ (m.find? k).isSome = true := m.mem_dom k

end NMap

/-! ## Data model (`types.rs`) -/

/-- `types.rs`: `enum ProfileVisibility`. -/
inductive ProfileVisibility
  | Public
  | FollowersOnly
  | Private
deriving DecidableEq

/-- `types.rs`: `enum MessagePrivacy`. -/
inductive MessagePrivacy
  | Everyone
  | FollowersOnly
  | Nobody
deriving DecidableEq

/-- `types.rs`: `enum VerificationStatus`. -/
inductive VerificationStatus
  | Unverified
  | Verified
  | Organization
  | Journalist
  | Whistleblower
deriving DecidableEq

/-- `types.rs`: `enum PostVisibility`. -/
inductive PostVisibility
  | Public
  | FollowersOnly
  | Unlisted
deriving DecidableEq

/-- `types.rs`: `enum FollowRequestStatus`. -/
inductive FollowRequestStatus
  | Pending
  | Approved
  | Rejected
  | Cancelled
deriving DecidableEq

/-- `types.rs`: `struct PrivacySettings`. -/
structure PrivacySettings where
  profile_visibility : ProfileVisibility
  message_privacy : MessagePrivacy
  show_social_graph : Bool
  searchable : Bool
deriving DecidableEq

/-- `impl Default for PrivacySettings`. -/
def PrivacySettings.default : PrivacySettings where
  profile_visibility := .Public
  message_privacy := .FollowersOnly
  show_social_graph := true
  searchable := true

/-- `types.rs`: `struct UserProfile`.  `id` is the `Nat`-encoded principal. -/
structure UserProfile where
  id : Nat
  username : String
  bio : String
  avatar : String
  created_at : Nat
  updated_at : Nat
  follower_count : Nat
  following_count : Nat
  post_count : Nat
  privacy_settings : PrivacySettings
  verification_status : VerificationStatus
deriving DecidableEq

/-- `types.rs`: `struct Post`.  Ids are the wrapped `u64`s/principals. -/
structure Post where
  id : Nat
  author_id : Nat
  content : String
  created_at : Nat
  updated_at : Nat
  like_count : Nat
  comment_count : Nat
  visibility : PostVisibility
  comments_count : Nat
  likes_count : Nat
  reposts_count : Nat
  tips_received : Nat
  edited_at : Option Nat
deriving DecidableEq

/-- `types.rs`: `struct Comment`. -/
structure Comment where
  id : Nat
  post_id : Nat
  author_id : Nat
  content : String
  created_at : Nat
  updated_at : Nat
deriving DecidableEq

/-- `types.rs`: `struct SocialConnections` — four `BTreeSet<UserId>`. -/
structure SocialConnections where
  following : Finset ℕ
  followers : Finset ℕ
  blocked : Finset ℕ
  blocked_by : Finset ℕ
deriving DecidableEq

/-- `impl Default for SocialConnections` (derived: four empty sets). -/
def SocialConnections.default : SocialConnections :=
  ⟨∅, ∅, ∅, ∅⟩

/-- `types.rs`: `struct FollowRequest`. -/
structure FollowRequest where
  id : Nat
  requester : Nat
  target : Nat
  created_at : Nat
  status : FollowRequestStatus
  message : Option String
deriving DecidableEq

/-- `types.rs`: `struct FeedPost` (feed entry with author snapshot). -/
structure FeedPost where
  post : Post
  author : UserProfile
  is_liked : Bool
deriving DecidableEq

/-- `types.rs` constants. -/
def MAX_POST_CONTENT : Nat := 10000
def MIN_POST_CONTENT : Nat := 1
def MAX_COMMENT_CONTENT : Nat := 500
def MIN_COMMENT_CONTENT : Nat := 1
def MAX_USERNAME_LENGTH : Nat := 50
def MIN_USERNAME_LENGTH : Nat := 3
def MAX_BIO_LENGTH : Nat := 500
def MAX_AVATAR_LENGTH : Nat := 200
def DEFAULT_FEED_LIMIT : Nat := 10
def MAX_FEED_LIMIT : Nat := 50
def MAX_FOLLOWING_LIMIT : Nat := 10000
def MAX_PENDING_REQUESTS : Nat := 100
def DEFAULT_CONNECTIONS_LIMIT : Nat := 20
def MAX_CONNECTIONS_LIMIT : Nat := 100

/-! ## State (`lib.rs`: `SocialNetworkState`)

The Rust struct has a `rate_limits` field that no function ever reads or
writes (`check_rate_limit` ignores the state entirely), so it is omitted
from the embedding. -/

/-- `lib.rs`: `struct SocialNetworkState`. -/
structure SocialNetworkState where
  users : NMap UserProfile
  posts : NMap Post
  comments : NMap Comment
  user_posts : NMap (List Nat)
  post_likes : NMap (Finset ℕ)
  post_comments : NMap (List Nat)
  next_post_id : Nat
  next_comment_id : Nat
  social_connections : NMap SocialConnections
  follow_requests : NMap FollowRequest
  next_follow_request_id : Nat
  following_index : NMap (Finset ℕ)
  followers_index : NMap (Finset ℕ)

/-- `SocialNetworkState::default()`: the initial empty state. -/
def initState : SocialNetworkState where
  users := .empty
  posts := .empty
  comments := .empty
  user_posts := .empty
  post_likes := .empty
  post_comments := .empty
  next_post_id := 0
  next_comment_id := 0
  social_connections := .empty
  follow_requests := .empty
  next_follow_request_id := 0
  following_index := .empty
  followers_index := .empty

namespace SocialNetworkState

/-- The following set of `a` (`social_connections[a].following`, empty when
`a` has no `SocialConnections` entry). -/
def followingOf (s : SocialNetworkState) (a : Nat) : Finset ℕ :=
  ((s.social_connections.find? a).getD SocialConnections.default).following

/-- The followers set of `a`. -/
def followersOf (s : SocialNetworkState) (a : Nat) : Finset ℕ :=
  ((s.social_connections.find? a).getD SocialConnections.default).followers

/-- The blocked set of `a`. -/
def blockedOf (s : SocialNetworkState) (a : Nat) : Finset ℕ :=
  ((s.social_connections.find? a).getD SocialConnections.default).blocked

/-- The blocked-by set of `a`. -/
def blockedByOf (s : SocialNetworkState) (a : Nat) : Finset ℕ :=
  ((s.social_connections.find? a).getD SocialConnections.default).blocked_by

/-- The `following_index` entry of `a` (empty when absent). -/
def followingIdxOf (s : SocialNetworkState) (a : Nat) : Finset ℕ :=
  (s.following_index.find? a).getD ∅

/-- The `followers_index` entry of `a` (empty when absent). -/
def followersIdxOf (s : SocialNetworkState) (a : Nat) : Finset ℕ :=
  (s.followers_index.find? a).getD ∅

end SocialNetworkState

/-! ## Validation (`validation.rs`) -/

instance {α β : Type} [DecidableEq α] [DecidableEq β] :
    DecidableEq (Except α β) := fun a b =>
  match a, b with
  | .ok x, .ok y => decidable_of_iff (x = y) (by simp)
  | .error x, .error y => decidable_of_iff (x = y) (by simp)
  | .ok _, .error _ => isFalse (by simp)
  | .error _, .ok _ => isFalse (by simp)

/-- `pat` occurs as a contiguous sublist of `l`. -/
def listInfixOf (pat : List Char) : List Char → Bool
  | [] => pat.isEmpty
  | l@(_ :: rest) => pat.isPrefixOf l || listInfixOf pat rest

/- The Rust string primitives are modelled on the character list of the
Lean string (rather than through Lean's byte-position-based `String`
functions) so that the kernel can evaluate them on concrete inputs; the
semantics agree on the ASCII texts at issue. -/

/-- Rust `String::contains(pat)` for a string pattern. -/
def strContainsSub (s pat : String) : Bool := listInfixOf pat.toList s.toList

/-- Rust `str::to_lowercase` (ASCII). -/
def strToLower (s : String) : String := String.mk (s.toList.map Char.toLower)

/-- Rust `str::starts_with`. -/
def strStartsWith (s pat : String) : Bool := pat.toList.isPrefixOf s.toList

/-- Rust `str::ends_with`. -/
def strEndsWith (s pat : String) : Bool := pat.toList.isSuffixOf s.toList

/-- Rust `str::contains(c)` for a character. -/
def strContainsChar (s : String) (c : Char) : Bool := s.toList.contains c

/-- Rust `str::trim`: strip whitespace from both ends. -/
def strTrim (s : String) : String :=
  String.mk
    (((s.toList.dropWhile Char.isWhitespace).reverse.dropWhile
      Char.isWhitespace).reverse)

/-- `validation.rs`: the XSS / SQL pattern blacklist of
`contains_malicious_patterns`. -/
def maliciousPatterns : List String :=
  ["<script", "</script>", "javascript:", "onclick=", "onerror=", "onload=",
   "eval(", "alert(", "document.cookie", "window.location", "iframe",
   "object", "embed", "form", "input",
   "union select", "drop table", "delete from", "insert into", "update set",
   "'; --", "\"; --"]

/-- `validation.rs`: `contains_malicious_patterns`. -/
def contains_malicious_patterns (content : String) : Bool :=
  let content_lower := strToLower content
  maliciousPatterns.any fun pattern => strContainsSub content_lower pattern

/-- `validation.rs`: `is_valid_url`. -/
def is_valid_url (url : String) : Bool :=
  strStartsWith url "https://" && url.utf8ByteSize > 10
    && strContainsChar url '.' && !strContainsChar url ' '
    && !strContainsChar url '\n' && !strContainsChar url '\r'

/-- `validation.rs`: `is_safe_avatar_url` (trusted-domain whitelist). -/
def is_safe_avatar_url (url : String) : Bool :=
  ["imgur.com", "i.imgur.com", "github.com", "githubusercontent.com",
   "gravatar.com", "avatar.com", "cloudinary.com", "cloudflare.com",
   "unsplash.com", "pexels.com"].any fun domain => strContainsSub url domain

/-- Loop body of `has_excessive_repetition`: `prev` is the previous
character, `cnt` the current run length. -/
def excessiveRepAux : Option Char → Nat → List Char → Bool
  | _, _, [] => false
  | prev, cnt, c :: rest =>
    if some c = prev then
      if cnt + 1 > 10 then true else excessiveRepAux (some c) (cnt + 1) rest
    else excessiveRepAux (some c) 1 rest

/-- `validation.rs`: `has_excessive_repetition` (more than 10 consecutive
identical characters). -/
def has_excessive_repetition (content : String) : Bool :=
  excessiveRepAux none 1 content.toList

/-- `validation.rs`: `has_excessive_caps`.  The `f64` comparison
`caps / total > 0.7` is modelled exactly as `10 * caps > 7 * total`. -/
def has_excessive_caps (content : String) : Bool :=
  if content.utf8ByteSize < 10 then false
  else
    let total_letters := (content.toList.filter (·.isAlpha)).length
    let caps_letters := (content.toList.filter (·.isUpper)).length
    if total_letters = 0 then false
    else 10 * caps_letters > 7 * total_letters

/-- `validation.rs`: `has_excessive_special_chars`.  The `f64` comparison
`special / total > 0.5` is modelled exactly as `2 * special > total`. -/
def has_excessive_special_chars (content : String) : Bool :=
  let special_chars :=
    (content.toList.filter fun c => !c.isAlphanum && !c.isWhitespace).length
  let total_chars := content.utf8ByteSize
  if total_chars = 0 then false
  else 2 * special_chars > total_chars

/-- `validation.rs`: `is_likely_spam`. -/
def is_likely_spam (content : String) : Bool :=
  has_excessive_repetition content || has_excessive_caps content
    || has_excessive_special_chars content

/-- Loop of `validate_username` rejecting consecutive `_` / `-`. -/
def consecutiveSpecialAux : Bool → List Char → Bool
  | _, [] => false
  | prev_special, c :: rest =>
    let is_special := c = '_' || c = '-'
    if is_special && prev_special then true
    else consecutiveSpecialAux is_special rest

/-- `validation.rs`: the reserved-word list of `validate_username`. -/
def reservedWords : List String :=
  ["admin", "administrator", "mod", "moderator", "system", "root", "api",
   "www", "mail", "email", "support", "help", "info", "news", "blog",
   "decentra", "backend", "frontend", "canister", "icp", "dfinity",
   "anonymous", "null", "undefined", "true", "false", "test", "demo"]

/-- `validation.rs`: `validate_username`. -/
def validate_username (username : String) : Except String Unit :=
  if username.utf8ByteSize < MIN_USERNAME_LENGTH then
    .error "Username must be at least 3 characters"
  else if username.utf8ByteSize > MAX_USERNAME_LENGTH then
    .error "Username must be less than 50 characters"
  else if !(username.toList.all fun c => c.isAlphanum || c = '_' || c = '-') then
    .error "Username can only contain letters, numbers, underscores, and hyphens"
  else if strStartsWith username "_" || strStartsWith username "-"
      || strEndsWith username "_" || strEndsWith username "-" then
    .error "Username cannot start or end with underscore or hyphen"
  else if consecutiveSpecialAux false username.toList then
    .error "Username cannot have consecutive special characters"
  else if reservedWords.contains (strToLower username) then
    .error "Username is reserved and cannot be used"
  else .ok ()

/-- `validation.rs`: `validate_bio`. -/
def validate_bio (bio : String) : Except String Unit :=
  if bio.utf8ByteSize > MAX_BIO_LENGTH then
    .error "Bio must be less than 500 characters"
  else if contains_malicious_patterns bio then
    .error "Bio contains potentially harmful content"
  else .ok ()

/-- `validation.rs`: `validate_avatar`. -/
def validate_avatar (avatar : String) : Except String Unit :=
  if avatar.utf8ByteSize > MAX_AVATAR_LENGTH then
    .error "Avatar must be less than 200 characters"
  else if (strStartsWith avatar "http://" || strStartsWith avatar "https://")
      && !is_valid_url avatar then
    .error "Invalid avatar URL format"
  else if (strStartsWith avatar "http://" || strStartsWith avatar "https://")
      && !is_safe_avatar_url avatar then
    .error "Avatar URL must be from a trusted domain"
  else if contains_malicious_patterns avatar then
    .error "Avatar contains potentially harmful content"
  else .ok ()

/-- `validation.rs`: `validate_post_content`. -/
def validate_post_content (content : String) : Except String Unit :=
  if (strTrim content).utf8ByteSize < MIN_POST_CONTENT then
    .error "Post content cannot be empty"
  else if content.utf8ByteSize > MAX_POST_CONTENT then
    .error "Post content must be less than 10000 characters"
  else if is_likely_spam content then
    .error "Post appears to be spam or repetitive content"
  else if contains_malicious_patterns content then
    .error "Post contains potentially harmful content"
  else .ok ()

/-- `validation.rs`: `validate_comment_content`. -/
def validate_comment_content (content : String) : Except String Unit :=
  if (strTrim content).utf8ByteSize < MIN_COMMENT_CONTENT then
    .error "Comment cannot be empty"
  else if content.utf8ByteSize > MAX_COMMENT_CONTENT then
    .error "Comment must be less than 500 characters"
  else if is_likely_spam content then
    .error "Comment appears to be spam or repetitive content"
  else if contains_malicious_patterns content then
    .error "Comment contains potentially harmful content"
  else .ok ()

/-! ## Authentication and rate limiting (`auth.rs`) -/

/-- `auth.rs`: `authenticate_user` — rejects the anonymous principal. -/
def authenticate_user (caller : Nat) : Except String Nat :=
  if caller = anonPrincipal then
    .error "Authentication required. Please log in with Internet Identity."
  else .ok caller

/-- `auth.rs`: `check_rate_limit`.  The source computes a window start and
then always returns `Ok(())` ("For MVP, we'll do basic validation without
persistent storage"); it never reads or writes state. -/
def check_rate_limit (_user_id : Nat) (_action : String) (_max_actions : Nat)
    (_window_seconds : Nat) (_now : Nat) : Except String Unit :=
  .ok ()

/-! ## Scans over map values (`values().any(..)` / `values().filter(..).count()`) -/

/-- `BTreeMap::values().any(p)` (order-independent). -/
def NMap.anyValue {β : Type} (m : NMap β) (p : β → Bool) : Bool :=
  decide (∃ k ∈ m.dom, ((m.find? k).map p).getD false = true)

/-- `BTreeMap::values().filter(p).count()`. -/
def NMap.countValues {β : Type} (m : NMap β) (p : β → Bool) : Nat :=
  (m.dom.filter fun k => ((m.find? k).map p).getD false = true).card

/-! ## Mutating operations (`lib.rs`)

Each `#[update]` endpoint is a function of the pre-state, the caller
principal, its arguments and the current time, returning the post-state
and the endpoint's `Result`.  Paths that return an error before any
`with_state_mut` call leave the state unchanged, exactly as in the
source. -/

open SocialNetworkState

/-- `lib.rs`: `create_user_profile`. -/
def create_user_profile (s : SocialNetworkState) (caller : Nat)
    (username : String) (bio avatar : Option String) (now : Nat) :
    SocialNetworkState × Except String UserProfile :=
  match authenticate_user caller with
  | .error e => (s, .error e)
  | .ok user_id =>
    if s.users.contains user_id then (s, .error "User profile already exists")
    else match validate_username username with
    | .error e => (s, .error e)
    | .ok () =>
      match (match bio with | some b => validate_bio b | none => .ok ()) with
      | .error e => (s, .error e)
      | .ok () =>
        match (match avatar with | some a => validate_avatar a | none => .ok ()) with
        | .error e => (s, .error e)
        | .ok () =>
          if s.users.anyValue (fun profile => profile.username == username) then
            (s, .error "Username already taken")
          else
            let profile : UserProfile :=
              { id := user_id, username := username, bio := bio.getD "",
                avatar := avatar.getD "", created_at := now, updated_at := now,
                follower_count := 0, following_count := 0, post_count := 0,
                privacy_settings := PrivacySettings.default,
                verification_status := .Unverified }
            ({ s with users := s.users.insert user_id profile,
                      user_posts := s.user_posts.insert user_id [] },
             .ok profile)

/-- `lib.rs`: `update_user_profile`. -/
def update_user_profile (s : SocialNetworkState) (caller : Nat)
    (username : String) (bio avatar : Option String) (now : Nat) :
    SocialNetworkState × Except String UserProfile :=
  match authenticate_user caller with
  | .error e => (s, .error e)
  | .ok user_id =>
    match validate_username username with
    | .error e => (s, .error e)
    | .ok () =>
      match (match bio with | some b => validate_bio b | none => .ok ()) with
      | .error e => (s, .error e)
      | .ok () =>
        match (match avatar with | some a => validate_avatar a | none => .ok ()) with
        | .error e => (s, .error e)
        | .ok () =>
          if s.users.anyValue (fun p => p.username == username && p.id != user_id) then
            (s, .error "Username already taken")
          else match s.users.find? user_id with
          | none => (s, .error "Profile not found")
          | some profile =>
            let profile' : UserProfile :=
              { profile with
                username := username
                bio := bio.getD ""
                avatar := avatar.getD ""
                updated_at := now }
            ({ s with users := s.users.insert user_id profile' }, .ok profile')

/-- `lib.rs`: `ensure_user_profile` — creates a default profile (and empty
posts list) when the user has none.  The default username is
`format!("user_{}", principal text truncated to 8 chars)`; the principal's
text form is modelled by the decimal text of its `Nat` encoding. -/
def ensure_user_profile (s : SocialNetworkState) (user_id now : Nat) :
    SocialNetworkState :=
  if s.users.contains user_id then s
  else
    let default_profile : UserProfile :=
      { id := user_id, username := "user_" ++ (toString user_id).take 8,
        bio := "New deCentra user", avatar := "👤",
        created_at := now, updated_at := now,
        follower_count := 0, following_count := 0, post_count := 0,
        privacy_settings := PrivacySettings.default,
        verification_status := .Unverified }
    { s with users := s.users.insert user_id default_profile,
             user_posts := s.user_posts.insert user_id [] }

/-- `lib.rs`: `create_post`. -/
def create_post (s : SocialNetworkState) (caller : Nat) (content : String)
    (visibility : Option PostVisibility) (now : Nat) :
    SocialNetworkState × Except String Nat :=
  match authenticate_user caller with
  | .error e => (s, .error e)
  | .ok user_id =>
    match validate_post_content content with
    | .error e => (s, .error e)
    | .ok () =>
      match check_rate_limit user_id "create_post" 10 300 now with
      | .error e => (s, .error e)
      | .ok () =>
        let s := ensure_user_profile s user_id now
        let post_id := s.next_post_id
        let post : Post :=
          { id := post_id, author_id := user_id, content := content,
            created_at := now, updated_at := now,
            likes_count := 0, comments_count := 0, reposts_count := 0,
            tips_received := 0, edited_at := none,
            visibility := visibility.getD .Public,
            like_count := 0, comment_count := 0 }
        ({ s with
            next_post_id := satSucc64 s.next_post_id,
            posts := s.posts.insert post_id post,
            post_likes := s.post_likes.insert post_id ∅,
            post_comments := s.post_comments.insert post_id [],
            user_posts := s.user_posts.upsert user_id (· ++ [post_id]) [],
            users := s.users.modify user_id fun profile =>
              { profile with post_count := satSucc64 profile.post_count,
                             updated_at := now } },
         .ok post_id)

/-- `lib.rs`: `like_post`. -/
def like_post (s : SocialNetworkState) (caller pid now : Nat) :
    SocialNetworkState × Except String Unit :=
  match authenticate_user caller with
  | .error e => (s, .error e)
  | .ok user_id =>
    match check_rate_limit user_id "like_post" 60 60 now with
    | .error e => (s, .error e)
    | .ok () =>
      match s.posts.find? pid with
      | none => (s, .error "Post not found")
      | some _post =>
        -- `likes` below is `post_likes.entry(post_id).or_default()`
        if user_id ∈ (s.post_likes.find? pid).getD ∅ then
          (s, .error "Already liked this post")
        else
          ({ s with
              post_likes := s.post_likes.insert pid
                (insert user_id ((s.post_likes.find? pid).getD ∅)),
              posts := s.posts.modify pid fun post =>
                { post with like_count := satSucc64 post.like_count,
                            updated_at := now } },
           .ok ())

/-- `lib.rs`: `unlike_post`.  On the "Haven't liked this post" branch the
source has already run `entry(post_id).or_default()`, so an absent likes
entry is materialised as an empty set even though the call fails. -/
def unlike_post (s : SocialNetworkState) (caller pid now : Nat) :
    SocialNetworkState × Except String Unit :=
  match authenticate_user caller with
  | .error e => (s, .error e)
  | .ok user_id =>
    match s.posts.find? pid with
    | none => (s, .error "Post not found")
    | some _post =>
      if user_id ∉ (s.post_likes.find? pid).getD ∅ then
        ({ s with post_likes :=
            s.post_likes.insert pid ((s.post_likes.find? pid).getD ∅) },
         .error "Haven't liked this post")
      else
        ({ s with
            post_likes := s.post_likes.insert pid
              (((s.post_likes.find? pid).getD ∅).erase user_id),
            posts := s.posts.modify pid fun post =>
              { post with like_count := post.like_count - 1,
                          updated_at := now } },
         .ok ())

/-- `lib.rs`: `add_comment`. -/
def add_comment (s : SocialNetworkState) (caller pid : Nat) (content : String)
    (now : Nat) : SocialNetworkState × Except String Comment :=
  match authenticate_user caller with
  | .error e => (s, .error e)
  | .ok user_id =>
    match validate_comment_content content with
    | .error e => (s, .error e)
    | .ok () =>
      match check_rate_limit user_id "add_comment" 30 60 now with
      | .error e => (s, .error e)
      | .ok () =>
        match s.posts.find? pid with
        | none => (s, .error "Post not found")
        | some _post =>
          let comment_id := s.next_comment_id
          let comment : Comment :=
            { id := comment_id, post_id := pid, author_id := user_id,
              content := content, created_at := now, updated_at := now }
          ({ s with
              next_comment_id := satSucc64 s.next_comment_id,
              comments := s.comments.insert comment_id comment,
              post_comments := s.post_comments.upsert pid (· ++ [comment_id]) [],
              posts := s.posts.modify pid fun post =>
                { post with comment_count := satSucc64 post.comment_count,
                            updated_at := now } },
           .ok comment)

/-- `lib.rs`: `execute_follow` — the single mutation point creating an
edge: inserts into both connection sets and both indices and bumps both
derived counters (counter updates are skipped when the corresponding user
has no profile, as in the source's `if let Some(...) = users.get_mut(..)`). -/
def execute_follow (s : SocialNetworkState) (follower_id target_id now : Nat) :
    SocialNetworkState :=
  let sc := s.social_connections.upsert follower_id
    (fun conn => { conn with following := insert target_id conn.following })
    SocialConnections.default
  let sc := sc.upsert target_id
    (fun conn => { conn with followers := insert follower_id conn.followers })
    SocialConnections.default
  let fi := s.following_index.upsert follower_id (insert target_id) ∅
  let gi := s.followers_index.upsert target_id (insert follower_id) ∅
  let us := s.users.modify follower_id fun profile =>
    { profile with following_count := satSucc64 profile.following_count,
                   updated_at := now }
  let us := us.modify target_id fun profile =>
    { profile with follower_count := satSucc64 profile.follower_count,
                   updated_at := now }
  { s with social_connections := sc, following_index := fi,
           followers_index := gi, users := us }

/-- `lib.rs`: `execute_unfollow` — removes the edge from both connection
sets and both indices and decrements both counters (saturating at zero). -/
def execute_unfollow (s : SocialNetworkState) (follower_id target_id now : Nat) :
    SocialNetworkState :=
  let sc := s.social_connections.modify follower_id fun conn =>
    { conn with following := conn.following.erase target_id }
  let sc := sc.modify target_id fun conn =>
    { conn with followers := conn.followers.erase follower_id }
  let fi := s.following_index.modify follower_id (·.erase target_id)
  let gi := s.followers_index.modify target_id (·.erase follower_id)
  let us := s.users.modify follower_id fun profile =>
    { profile with following_count := profile.following_count - 1,
                   updated_at := now }
  let us := us.modify target_id fun profile =>
    { profile with follower_count := profile.follower_count - 1,
                   updated_at := now }
  { s with social_connections := sc, following_index := fi,
           followers_index := gi, users := us }

/-- `lib.rs`: `create_follow_request`. -/
def create_follow_request (s : SocialNetworkState)
    (requester_id target_id : Nat) (message : Option String) (now : Nat) :
    SocialNetworkState × Except String Unit :=
  if s.follow_requests.anyValue (fun req =>
      decide (req.requester = requester_id ∧ req.target = target_id ∧
        req.status = .Pending)) then
    (s, .error "Follow request already pending")
  else if MAX_PENDING_REQUESTS ≤ s.follow_requests.countValues (fun req =>
      decide (req.requester = requester_id ∧ req.status = .Pending)) then
    (s, .error "Too many pending follow requests")
  else
    let request_id := s.next_follow_request_id
    let follow_request : FollowRequest :=
      { id := request_id, requester := requester_id, target := target_id,
        created_at := now, status := .Pending, message := message }
    ({ s with
        follow_requests := s.follow_requests.insert request_id follow_request,
        next_follow_request_id := satSucc64 s.next_follow_request_id },
     .ok ())

/-- `lib.rs`: `follow_user`. -/
def follow_user (s : SocialNetworkState) (caller target_id now : Nat) :
    SocialNetworkState × Except String Unit :=
  match authenticate_user caller with
  | .error e => (s, .error e)
  | .ok follower_id =>
    if follower_id = target_id then (s, .error "Cannot follow yourself")
    else match s.users.find? target_id with
    | none => (s, .error "User does not exist")
    | some target_profile =>
      if target_id ∈ s.followingOf follower_id then
        (s, .error "Already following this user")
      else if follower_id ∈ s.blockedOf target_id then
        (s, .error "User has blocked you")
      else if MAX_FOLLOWING_LIMIT ≤ (s.followingOf follower_id).card then
        (s, .error "Following limit exceeded")
      else match target_profile.privacy_settings.profile_visibility with
        | .Public => (execute_follow s follower_id target_id now, .ok ())
        | .FollowersOnly => create_follow_request s follower_id target_id none now
        | .Private => create_follow_request s follower_id target_id none now

/-- `lib.rs`: `unfollow_user`. -/
def unfollow_user (s : SocialNetworkState) (caller target_id now : Nat) :
    SocialNetworkState × Except String Unit :=
  match authenticate_user caller with
  | .error e => (s, .error e)
  | .ok follower_id =>
    if !s.users.contains target_id then (s, .error "User does not exist")
    else if target_id ∉ s.followingOf follower_id then
      (s, .error "Not following this user")
    else (execute_unfollow s follower_id target_id now, .ok ())

/-- `lib.rs`: `approve_follow_request`. -/
def approve_follow_request (s : SocialNetworkState) (caller request_id now : Nat) :
    SocialNetworkState × Except String Unit :=
  match authenticate_user caller with
  | .error e => (s, .error e)
  | .ok target_id =>
    match s.follow_requests.find? request_id with
    | none => (s, .error "Follow request not found")
    | some request =>
      if request.target ≠ target_id then
        (s, .error "Not authorized to approve this request")
      else if request.status ≠ .Pending then
        (s, .error "Follow request is not pending")
      else
        let s := execute_follow s request.requester request.target now
        let reqs := s.follow_requests.modify request_id
          (fun req => { req with status := .Approved })
        ({ s with follow_requests := reqs }, .ok ())

/-- `lib.rs`: `reject_follow_request`. -/
def reject_follow_request (s : SocialNetworkState) (caller request_id _now : Nat) :
    SocialNetworkState × Except String Unit :=
  match authenticate_user caller with
  | .error e => (s, .error e)
  | .ok target_id =>
    match s.follow_requests.find? request_id with
    | none => (s, .error "Follow request not found")
    | some request =>
      if request.target ≠ target_id then
        (s, .error "Not authorized to reject this request")
      else if request.status ≠ .Pending then
        (s, .error "Follow request is not pending")
      else
        let reqs := s.follow_requests.modify request_id
          (fun req => { req with status := .Rejected })
        ({ s with follow_requests := reqs }, .ok ())

/-! ## Query operations (`lib.rs`) -/

/-- The visibility filter shared by `get_post` and `get_user_posts`.
`FollowersOnly` is passed by *any* non-anonymous viewer — the source reads
"For now, allow all (following system to be implemented)". -/
def postVisibleSingle (viewer : Nat) (post : Post) : Bool :=
  match post.visibility with
  | .Public => true
  | .FollowersOnly => viewer != anonPrincipal
  | .Unlisted => viewer == post.author_id

/-- `lib.rs`: `get_post` — `viewer` is the caller principal
(`anonPrincipal` for an anonymous caller). -/
def get_post (s : SocialNetworkState) (viewer pid : Nat) : Option Post :=
  (s.posts.find? pid).filter (postVisibleSingle viewer)

/-- `lib.rs`: `get_user_posts` — newest first, paginated *before* the
visibility filter is applied, as in the source's iterator chain. -/
def get_user_posts (s : SocialNetworkState) (viewer user_id : Nat)
    (limit offset : Option Nat) : List Post :=
  let limit := min (limit.getD 10) 50
  let offset := offset.getD 0
  match s.user_posts.find? user_id with
  | none => []
  | some post_ids =>
    ((((post_ids.reverse.drop offset).take limit).filterMap
        s.posts.find?).filter (postVisibleSingle viewer))

/-- The feed visibility check of `get_social_feed` (`caller_id = none`
for an anonymous viewer): `FollowersOnly` requires the viewer to be the
author or a member of the author's followers set. -/
def feedVisible (s : SocialNetworkState) (caller_id : Option Nat)
    (post : Post) : Bool :=
  match post.visibility with
  | .Public => true
  | .FollowersOnly =>
    match caller_id with
    | some v => post.author_id == v || decide (v ∈ s.followersOf post.author_id)
    | none => false
  | .Unlisted =>
    match caller_id with
    | some v => v == post.author_id
    | none => false

/-- The candidate-author set of `get_social_feed`: for an authenticated
viewer, the viewer plus the followed users that the viewer has not
blocked; for an anonymous viewer, every user with a profile. -/
def feedRelevantUsers (s : SocialNetworkState) (caller_id : Option Nat) :
    Finset ℕ :=
  match caller_id with
  | some user_id =>
    insert user_id ((s.followingOf user_id).filter
      (fun followed_id => followed_id ∉ s.blockedOf user_id))
  | none => s.users.dom

/-- Ascending listing of a multiset of naturals (insertion sort, so that
the kernel can evaluate it on concrete inputs). -/
def msortAsc (s : Multiset ℕ) : List ℕ :=
  Quot.liftOn s (fun l => l.insertionSort (· ≤ ·)) fun _ _ h =>
    List.eq_of_perm_of_sorted
      ((List.perm_insertionSort _ _).trans
        (h.trans (List.perm_insertionSort _ _).symm))
      (List.sorted_insertionSort _ _) (List.sorted_insertionSort _ _)

/-- Ascending iteration over a `BTreeSet<UserId>` / the key set of a
`BTreeMap`: the elements of the `Finset` in increasing order. -/
def finsetAsc (s : Finset ℕ) : List ℕ := msortAsc s.val

theorem msortAsc_coe (m : Multiset ℕ) : (msortAsc m : Multiset ℕ) = m :=
  Quot.inductionOn m fun _ => Multiset.coe_eq_coe.mpr (List.perm_insertionSort _ _)

theorem msortAsc_sorted (m : Multiset ℕ) : List.Sorted (· ≤ ·) (msortAsc m) :=
  Quot.inductionOn m fun _ => List.sorted_insertionSort _ _

/-- `finsetAsc` agrees with Mathlib's `Finset.sort`. -/
theorem finsetAsc_eq_sort (s : Finset ℕ) : finsetAsc s = s.sort (· ≤ ·) := by
  refine List.eq_of_perm_of_sorted ?_ (msortAsc_sorted _) (Finset.sort_sorted _ _)
  refine Multiset.coe_eq_coe.mp ?_
  show (msortAsc s.val : Multiset ℕ) = _
  rw [msortAsc_coe]
  exact ((Multiset.coe_eq_coe.mpr (Finset.sort_perm_toList (r := (· ≤ ·)) s)).trans
    (Multiset.coe_toList s.val)).symm

/-- Membership in `finsetAsc`. -/
theorem mem_finsetAsc {s : Finset ℕ} {a : ℕ} : a ∈ finsetAsc s ↔ a ∈ s := by
  rw [finsetAsc_eq_sort]; exact Finset.mem_sort _

/-- The feed entries contributed by one candidate author, in the order of
the author's `user_posts` list (authors without a profile contribute
nothing, as in the source's `if let Some(user_profile) = ...`). -/
def userFeedPosts (s : SocialNetworkState) (caller_id : Option Nat)
    (user_id : Nat) : List (Post × UserProfile) :=
  match s.users.find? user_id with
  | none => []
  | some user_profile =>
    match s.user_posts.find? user_id with
    | none => []
    | some post_ids =>
      ((post_ids.filterMap s.posts.find?).filter
        (feedVisible s caller_id)).map (fun post => (post, user_profile))

/-- The `visible_posts` vector of `get_social_feed` before sorting:
candidate authors in ascending order (B-tree iteration), each author's
posts in `user_posts` order.  Entries are paired with their position so
the stable sort below is expressible. -/
def feedCollected (s : SocialNetworkState) (caller_id : Option Nat) :
    List (Post × UserProfile) :=
  (finsetAsc (feedRelevantUsers s caller_id)).flatMap
    (userFeedPosts s caller_id)

/-- The ordering used to model Rust's *stable*
`sort_by(|a, b| b.0.cmp(&a.0))` on `visible_posts`: descending by
`created_at`, and on equal timestamps ascending by original position —
exactly the permutation a stable sort produces. -/
def feedRel (a b : ℕ × Post × UserProfile) : Prop :=
  b.2.1.created_at < a.2.1.created_at ∨
    (a.2.1.created_at = b.2.1.created_at ∧ a.1 ≤ b.1)

instance : DecidableRel feedRel := fun a b => by
  unfold feedRel; infer_instance

instance : IsTotal (ℕ × Post × UserProfile) feedRel where
  total a b := by
    unfold feedRel
    rcases Nat.lt_trichotomy a.2.1.created_at b.2.1.created_at with h | h | h
    · exact Or.inr (Or.inl h)
    · rcases Nat.le_total a.1 b.1 with h' | h'
      · exact Or.inl (Or.inr ⟨h, h'⟩)
      · exact Or.inr (Or.inr ⟨h.symm, h'⟩)
    · exact Or.inl (Or.inl h)

instance : IsTrans (ℕ × Post × UserProfile) feedRel where
  trans a b c hab hbc := by
    unfold feedRel at *
    rcases hab with h1 | ⟨h1, h1'⟩ <;> rcases hbc with h2 | ⟨h2, h2'⟩
    · exact Or.inl (h2.trans h1)
    · exact Or.inl (h2 ▸ h1)
    · exact Or.inl (h1 ▸ h2)
    · exact Or.inr ⟨h1.trans h2, h1'.trans h2'⟩

/-- The sorted `visible_posts` (still carrying traversal positions). -/
def feedSorted (s : SocialNetworkState) (caller_id : Option Nat) :
    List (ℕ × Post × UserProfile) :=
  ((feedCollected s caller_id).enum).insertionSort feedRel

/-- Builds one `FeedPost` entry: the post, the author snapshot and the
transient `is_liked` flag. -/
def feedMk (s : SocialNetworkState) (caller_id : Option Nat)
    (pa : Post × UserProfile) : FeedPost :=
  { post := pa.1, author := pa.2,
    is_liked :=
      match caller_id with
      | some user_id =>
        decide (user_id ∈ (s.post_likes.find? pa.1.id).getD ∅)
      | none => false }

/-- `lib.rs`: `get_social_feed` — `caller` is the caller principal
(`anonPrincipal` when anonymous). -/
def get_social_feed (s : SocialNetworkState) (caller : Nat)
    (limit offset : Option Nat) : List FeedPost :=
  let limit := min (limit.getD DEFAULT_FEED_LIMIT) MAX_FEED_LIMIT
  let offset := offset.getD 0
  let caller_id : Option Nat :=
    if caller = anonPrincipal then none else some caller
  ((((feedSorted s caller_id).map Prod.snd).drop offset).take limit).map
    (feedMk s caller_id)

/-! ## Operation sequences -/

/-- One public mutating operation (any caller, any arguments, any clock
value), as observed through its effect on the state.  Queries do not
mutate state; operations that fail leave the state unchanged (their
translations return the input state on every error path). -/
inductive Step : SocialNetworkState → SocialNetworkState → Prop where
  | create_user_profile (s : SocialNetworkState) (caller : Nat)
      (username : String) (bio avatar : Option String) (now : Nat) :
      Step s (DeCentra.create_user_profile s caller username bio avatar now).1
  | update_user_profile (s : SocialNetworkState) (caller : Nat)
      (username : String) (bio avatar : Option String) (now : Nat) :
      Step s (DeCentra.update_user_profile s caller username bio avatar now).1
  | create_post (s : SocialNetworkState) (caller : Nat) (content : String)
      (visibility : Option PostVisibility) (now : Nat) :
      Step s (DeCentra.create_post s caller content visibility now).1
  | like_post (s : SocialNetworkState) (caller pid now : Nat) :
      Step s (DeCentra.like_post s caller pid now).1
  | unlike_post (s : SocialNetworkState) (caller pid now : Nat) :
      Step s (DeCentra.unlike_post s caller pid now).1
  | add_comment (s : SocialNetworkState) (caller pid : Nat) (content : String)
      (now : Nat) :
      Step s (DeCentra.add_comment s caller pid content now).1
  | follow_user (s : SocialNetworkState) (caller target now : Nat) :
      Step s (DeCentra.follow_user s caller target now).1
  | unfollow_user (s : SocialNetworkState) (caller target now : Nat) :
      Step s (DeCentra.unfollow_user s caller target now).1
  | approve_follow_request (s : SocialNetworkState) (caller rid now : Nat) :
      Step s (DeCentra.approve_follow_request s caller rid now).1
  | reject_follow_request (s : SocialNetworkState) (caller rid now : Nat) :
      Step s (DeCentra.reject_follow_request s caller rid now).1

/-- States reachable from the initial empty state by a sequence of public
operations. -/
inductive Reachable : SocialNetworkState → Prop where
  | init : Reachable initState
  | step {s s'} : Reachable s → Step s s' → Reachable s'

/-! ## How `execute_follow` / `execute_unfollow` transform the graph -/

theorem followingOf_execute_follow (s : SocialNetworkState) (f t now u : Nat) :
    (execute_follow s f t now).followingOf u =
      if u = f then insert t (s.followingOf f) else s.followingOf u := by
  unfold execute_follow SocialNetworkState.followingOf
  simp only [NMap.upsert, NMap.find?_insert]
  rcases eq_or_ne u t with rfl | hut <;> rcases eq_or_ne u f with rfl | huf <;>
    simp_all [SocialConnections.default] <;>
    cases s.social_connections.find? u <;>
    simp_all [SocialConnections.default]

theorem followersOf_execute_follow (s : SocialNetworkState) (f t now u : Nat) :
    (execute_follow s f t now).followersOf u =
      if u = t then insert f (s.followersOf t) else s.followersOf u := by
  unfold execute_follow SocialNetworkState.followersOf
  simp only [NMap.upsert, NMap.find?_insert]
  rcases eq_or_ne u t with rfl | hut <;> rcases eq_or_ne u f with rfl | huf <;>
    simp_all [SocialConnections.default] <;>
    cases s.social_connections.find? u <;>
    simp_all [SocialConnections.default]

theorem blockedOf_execute_follow (s : SocialNetworkState) (f t now u : Nat) :
    (execute_follow s f t now).blockedOf u = s.blockedOf u := by
  unfold execute_follow SocialNetworkState.blockedOf
  simp only [NMap.upsert, NMap.find?_insert]
  rcases eq_or_ne u t with rfl | hut <;> rcases eq_or_ne u f with rfl | huf <;>
    simp_all [SocialConnections.default] <;>
    first
      | (cases s.social_connections.find? u <;> simp_all [SocialConnections.default])
      | (cases s.social_connections.find? f <;> simp_all [SocialConnections.default])

theorem blockedByOf_execute_follow (s : SocialNetworkState) (f t now u : Nat) :
    (execute_follow s f t now).blockedByOf u = s.blockedByOf u := by
  unfold execute_follow SocialNetworkState.blockedByOf
  simp only [NMap.upsert, NMap.find?_insert]
  rcases eq_or_ne u t with rfl | hut <;> rcases eq_or_ne u f with rfl | huf <;>
    simp_all [SocialConnections.default] <;>
    first
      | (cases s.social_connections.find? u <;> simp_all [SocialConnections.default])
      | (cases s.social_connections.find? f <;> simp_all [SocialConnections.default])

theorem followingIdxOf_execute_follow (s : SocialNetworkState) (f t now u : Nat) :
    (execute_follow s f t now).followingIdxOf u =
      if u = f then insert t (s.followingIdxOf f) else s.followingIdxOf u := by
  unfold execute_follow SocialNetworkState.followingIdxOf
  simp only [NMap.upsert, NMap.find?_insert]
  rcases eq_or_ne u f with rfl | huf <;> simp_all

theorem followersIdxOf_execute_follow (s : SocialNetworkState) (f t now u : Nat) :
    (execute_follow s f t now).followersIdxOf u =
      if u = t then insert f (s.followersIdxOf t) else s.followersIdxOf u := by
  unfold execute_follow SocialNetworkState.followersIdxOf
  simp only [NMap.upsert, NMap.find?_insert]
  rcases eq_or_ne u t with rfl | hut <;> simp_all

theorem followingOf_execute_unfollow (s : SocialNetworkState) (f t now u : Nat) :
    (execute_unfollow s f t now).followingOf u =
      if u = f then (s.followingOf f).erase t else s.followingOf u := by
  unfold execute_unfollow SocialNetworkState.followingOf
  simp only [NMap.find?_modify]
  rcases eq_or_ne u t with rfl | hut <;> rcases eq_or_ne u f with rfl | huf <;>
    simp_all [SocialConnections.default] <;>
    cases s.social_connections.find? u <;>
    simp_all [SocialConnections.default]

theorem followersOf_execute_unfollow (s : SocialNetworkState) (f t now u : Nat) :
    (execute_unfollow s f t now).followersOf u =
      if u = t then (s.followersOf t).erase f else s.followersOf u := by
  unfold execute_unfollow SocialNetworkState.followersOf
  simp only [NMap.find?_modify]
  rcases eq_or_ne u t with rfl | hut <;> rcases eq_or_ne u f with rfl | huf <;>
    simp_all [SocialConnections.default] <;>
    cases s.social_connections.find? u <;>
    simp_all [SocialConnections.default]

theorem blockedOf_execute_unfollow (s : SocialNetworkState) (f t now u : Nat) :
    (execute_unfollow s f t now).blockedOf u = s.blockedOf u := by
  unfold execute_unfollow SocialNetworkState.blockedOf
  simp only [NMap.find?_modify]
  rcases eq_or_ne u t with rfl | hut <;> rcases eq_or_ne u f with rfl | huf <;>
    simp_all [SocialConnections.default] <;>
    cases s.social_connections.find? u <;>
    simp_all [SocialConnections.default]

theorem blockedByOf_execute_unfollow (s : SocialNetworkState) (f t now u : Nat) :
    (execute_unfollow s f t now).blockedByOf u = s.blockedByOf u := by
  unfold execute_unfollow SocialNetworkState.blockedByOf
  simp only [NMap.find?_modify]
  rcases eq_or_ne u t with rfl | hut <;> rcases eq_or_ne u f with rfl | huf <;>
    simp_all [SocialConnections.default] <;>
    cases s.social_connections.find? u <;>
    simp_all [SocialConnections.default]

theorem followingIdxOf_execute_unfollow (s : SocialNetworkState) (f t now u : Nat) :
    (execute_unfollow s f t now).followingIdxOf u =
      if u = f then (s.followingIdxOf f).erase t else s.followingIdxOf u := by
  unfold execute_unfollow SocialNetworkState.followingIdxOf
  simp only [NMap.find?_modify]
  rcases eq_or_ne u f with rfl | huf <;> simp_all <;>
    cases s.following_index.find? u <;> simp

theorem followersIdxOf_execute_unfollow (s : SocialNetworkState) (f t now u : Nat) :
    (execute_unfollow s f t now).followersIdxOf u =
      if u = t then (s.followersIdxOf t).erase f else s.followersIdxOf u := by
  unfold execute_unfollow SocialNetworkState.followersIdxOf
  simp only [NMap.find?_modify]
  rcases eq_or_ne u t with rfl | hut <;> simp_all <;>
    cases s.followers_index.find? u <;> simp

/-! ## The inductive state invariant

The conjunction below is preserved by every public operation and holds in
the initial state; it is the induction hypothesis behind the reachability
claims.  Note `allPublic` and `noRequests`: no public operation ever sets
a profile's `privacy_settings` to anything but the default (`Public`), so
`follow_user` never takes its follow-request branch and reachable states
contain no follow requests at all. -/

structure Inv (s : SocialNetworkState) : Prop where
  symm : ∀ a b, b ∈ s.followingOf a ↔ a ∈ s.followersOf b
  noSelf : ∀ a, a ∉ s.followingOf a
  idxFollowing : ∀ a, s.followingIdxOf a = s.followingOf a
  idxFollowers : ∀ a, s.followersIdxOf a = s.followersOf a
  blockedEmpty : ∀ a, s.blockedOf a = ∅
  blockedByEmpty : ∀ a, s.blockedByOf a = ∅
  allPublic : ∀ a p, s.users.find? a = some p →
    p.privacy_settings.profile_visibility = .Public
  noRequests : ∀ k, s.follow_requests.find? k = none
  authorHasProfile : ∀ pid p, s.posts.find? pid = some p →
    (s.users.find? p.author_id).isSome = true
  postsIndexed : ∀ pid p, s.posts.find? pid = some p →
    pid ∈ (s.user_posts.find? p.author_id).getD []

theorem inv_initState : Inv initState := by
  constructor <;>
    simp [initState, SocialNetworkState.followingOf,
      SocialNetworkState.followersOf, SocialNetworkState.blockedOf,
      SocialNetworkState.blockedByOf, SocialNetworkState.followingIdxOf,
      SocialNetworkState.followersIdxOf, SocialConnections.default]

theorem inv_create_user_profile (s : SocialNetworkState)
    (caller : Nat) (username : String) (bio avatar : Option String) (now : Nat)
    (h : Inv s) : Inv (create_user_profile s caller username bio avatar now).1 := by
  unfold create_user_profile
  split
  · exact h
  next user_id _ =>
    split
    · exact h
    next hnc =>
      split
      · exact h
      split
      · exact h
      split
      · exact h
      split
      · exact h
      refine ⟨h.symm, h.noSelf, h.idxFollowing, h.idxFollowers, h.blockedEmpty,
        h.blockedByEmpty, ?_, h.noRequests, ?_, ?_⟩
      · intro a p hp
        simp only [NMap.find?_insert] at hp
        split at hp
        · cases hp
          simp [PrivacySettings.default]
        · exact h.allPublic a p hp
      · intro pid p hp
        have := h.authorHasProfile pid p hp
        simp only [NMap.find?_insert]
        split
        · simp
        · exact this
      · intro pid p hp
        have hidx := h.postsIndexed pid p hp
        have hprof := h.authorHasProfile pid p hp
        simp only [NMap.find?_insert]
        split
        next heq =>
          exfalso
          rw [heq] at hprof
          simp [NMap.contains] at hnc
          rw [hnc] at hprof
          simp at hprof
        · exact hidx

theorem inv_update_user_profile (s : SocialNetworkState)
    (caller : Nat) (username : String) (bio avatar : Option String) (now : Nat)
    (h : Inv s) : Inv (update_user_profile s caller username bio avatar now).1 := by
  unfold update_user_profile
  split
  · exact h
  next user_id _ =>
    split
    · exact h
    split
    · exact h
    split
    · exact h
    split
    · exact h
    split
    · exact h
    next hfind =>
      refine ⟨h.symm, h.noSelf, h.idxFollowing, h.idxFollowers, h.blockedEmpty,
        h.blockedByEmpty, ?_, h.noRequests, ?_, h.postsIndexed⟩
      · intro a p hp
        simp only [NMap.find?_insert] at hp
        split at hp
        · cases hp
          simpa using h.allPublic _ _ hfind
        · exact h.allPublic a p hp
      · intro pid p hp
        have := h.authorHasProfile pid p hp
        simp only [NMap.find?_insert]
        split
        · simp
        · exact this

/-- Fields of the state untouched by `execute_follow`. -/
theorem posts_execute_follow (s : SocialNetworkState) (f t now : Nat) :
    (execute_follow s f t now).posts = s.posts := rfl

theorem user_posts_execute_follow (s : SocialNetworkState) (f t now : Nat) :
    (execute_follow s f t now).user_posts = s.user_posts := rfl

theorem follow_requests_execute_follow (s : SocialNetworkState) (f t now : Nat) :
    (execute_follow s f t now).follow_requests = s.follow_requests := rfl

theorem posts_execute_unfollow (s : SocialNetworkState) (f t now : Nat) :
    (execute_unfollow s f t now).posts = s.posts := rfl

theorem user_posts_execute_unfollow (s : SocialNetworkState) (f t now : Nat) :
    (execute_unfollow s f t now).user_posts = s.user_posts := rfl

theorem follow_requests_execute_unfollow (s : SocialNetworkState) (f t now : Nat) :
    (execute_unfollow s f t now).follow_requests = s.follow_requests := rfl

/-- `execute_follow` only rewrites counters and `updated_at` in profiles:
privacy settings are untouched. -/
theorem users_privacy_execute_follow (s : SocialNetworkState) (f t now a : Nat) :
    ((execute_follow s f t now).users.find? a).map (·.privacy_settings) =
      (s.users.find? a).map (·.privacy_settings) := by
  unfold execute_follow
  simp only [NMap.find?_modify]
  split_ifs <;> cases s.users.find? a <;> simp

theorem users_isSome_execute_follow (s : SocialNetworkState) (f t now a : Nat) :
    ((execute_follow s f t now).users.find? a).isSome =
      (s.users.find? a).isSome := by
  unfold execute_follow
  simp only [NMap.find?_modify]
  split_ifs <;> cases s.users.find? a <;> simp

theorem users_privacy_execute_unfollow (s : SocialNetworkState) (f t now a : Nat) :
    ((execute_unfollow s f t now).users.find? a).map (·.privacy_settings) =
      (s.users.find? a).map (·.privacy_settings) := by
  unfold execute_unfollow
  simp only [NMap.find?_modify]
  split_ifs <;> cases s.users.find? a <;> simp

theorem users_isSome_execute_unfollow (s : SocialNetworkState) (f t now a : Nat) :
    ((execute_unfollow s f t now).users.find? a).isSome =
      (s.users.find? a).isSome := by
  unfold execute_unfollow
  simp only [NMap.find?_modify]
  split_ifs <;> cases s.users.find? a <;> simp

/-- Case analysis for a successful lookup in a modified map. -/
theorem NMap.find?_modify_cases {β : Type} (m : NMap β) (k : Nat) (g : β → β)
    (a : Nat) {p : β} (hp : (m.modify k g).find? a = some p) :
    (∃ q, m.find? a = some q ∧ p = g q) ∨ m.find? a = some p := by
  simp only [NMap.find?_modify] at hp
  split at hp
  · cases hfind : m.find? a with
    | none => rw [hfind] at hp; simp at hp
    | some q => rw [hfind] at hp; simp at hp; exact Or.inl ⟨q, rfl, hp.symm⟩
  · exact Or.inr hp

/-- `execute_follow` preserves the invariant whenever follower ≠ target. -/
theorem inv_execute_follow (s : SocialNetworkState) (f t now : Nat)
    (h : Inv s) (hft : f ≠ t) : Inv (execute_follow s f t now) := by
  refine ⟨?_, ?_, ?_, ?_, ?_, ?_, ?_, ?_, ?_, ?_⟩
  · intro a b
    rw [followingOf_execute_follow, followersOf_execute_follow]
    rcases eq_or_ne a f with rfl | haf
    · rcases eq_or_ne b t with rfl | hbt
      · simp
      · simpa [hbt] using h.symm a b
    · rcases eq_or_ne b t with rfl | hbt
      · simpa [haf] using h.symm a b
      · simp only [if_neg haf, if_neg hbt]
        exact h.symm a b
  · intro a
    rw [followingOf_execute_follow]
    rcases eq_or_ne a f with rfl | haf
    · rw [if_pos rfl]
      simp only [Finset.mem_insert]
      rintro (rfl | hmem)
      · exact hft rfl
      · exact h.noSelf _ hmem
    · simp only [if_neg haf]
      exact h.noSelf a
  · intro a
    rw [followingIdxOf_execute_follow, followingOf_execute_follow]
    rcases eq_or_ne a f with rfl | haf
    · simp only [if_pos rfl, h.idxFollowing]
    · simp only [if_neg haf]
      exact h.idxFollowing a
  · intro a
    rw [followersIdxOf_execute_follow, followersOf_execute_follow]
    rcases eq_or_ne a t with rfl | hat
    · simp only [if_pos rfl, h.idxFollowers]
    · simp only [if_neg hat]
      exact h.idxFollowers a
  · intro a
    rw [blockedOf_execute_follow]
    exact h.blockedEmpty a
  · intro a
    rw [blockedByOf_execute_follow]
    exact h.blockedByEmpty a
  · intro a p hp
    have hp' : ((s.users.modify f fun profile =>
        { profile with following_count := satSucc64 profile.following_count,
                       updated_at := now }).modify t fun profile =>
        { profile with follower_count := satSucc64 profile.follower_count,
                       updated_at := now }).find? a = some p := hp
    rcases NMap.find?_modify_cases _ _ _ _ hp' with ⟨q, hq, rfl⟩ | hq
    · rcases NMap.find?_modify_cases _ _ _ _ hq with ⟨r, hr, rfl⟩ | hr
      · simpa using h.allPublic a r hr
      · simpa using h.allPublic a q hr
    · rcases NMap.find?_modify_cases _ _ _ _ hq with ⟨r, hr, rfl⟩ | hr
      · simpa using h.allPublic a r hr
      · exact h.allPublic a p hr
  · intro k
    exact h.noRequests k
  · intro pid p hp
    rw [posts_execute_follow] at hp
    rw [users_isSome_execute_follow]
    exact h.authorHasProfile pid p hp
  · intro pid p hp
    rw [posts_execute_follow] at hp
    exact h.postsIndexed pid p hp

/-- `execute_unfollow` preserves the invariant. -/
theorem inv_execute_unfollow (s : SocialNetworkState) (f t now : Nat)
    (h : Inv s) : Inv (execute_unfollow s f t now) := by
  refine ⟨?_, ?_, ?_, ?_, ?_, ?_, ?_, ?_, ?_, ?_⟩
  · intro a b
    rw [followingOf_execute_unfollow, followersOf_execute_unfollow]
    rcases eq_or_ne a f with rfl | haf
    · rcases eq_or_ne b t with rfl | hbt
      · simp
      · simpa [Finset.mem_erase, hbt] using h.symm a b
    · rcases eq_or_ne b t with rfl | hbt
      · simpa [Finset.mem_erase, haf] using h.symm a b
      · simp only [if_neg haf, if_neg hbt]
        exact h.symm a b
  · intro a
    rw [followingOf_execute_unfollow]
    rcases eq_or_ne a f with rfl | haf
    · rw [if_pos rfl]
      simp only [Finset.mem_erase]
      rintro ⟨-, hmem⟩
      exact h.noSelf _ hmem
    · simp only [if_neg haf]
      exact h.noSelf a
  · intro a
    rw [followingIdxOf_execute_unfollow, followingOf_execute_unfollow]
    rcases eq_or_ne a f with rfl | haf
    · simp only [if_pos rfl, h.idxFollowing]
    · simp only [if_neg haf]
      exact h.idxFollowing a
  · intro a
    rw [followersIdxOf_execute_unfollow, followersOf_execute_unfollow]
    rcases eq_or_ne a t with rfl | hat
    · simp only [if_pos rfl, h.idxFollowers]
    · simp only [if_neg hat]
      exact h.idxFollowers a
  · intro a
    rw [blockedOf_execute_unfollow]
    exact h.blockedEmpty a
  · intro a
    rw [blockedByOf_execute_unfollow]
    exact h.blockedByEmpty a
  · intro a p hp
    have hp' : ((s.users.modify f fun profile =>
        { profile with following_count := profile.following_count - 1,
                       updated_at := now }).modify t fun profile =>
        { profile with follower_count := profile.follower_count - 1,
                       updated_at := now }).find? a = some p := hp
    rcases NMap.find?_modify_cases _ _ _ _ hp' with ⟨q, hq, rfl⟩ | hq
    · rcases NMap.find?_modify_cases _ _ _ _ hq with ⟨r, hr, rfl⟩ | hr
      · simpa using h.allPublic a r hr
      · simpa using h.allPublic a q hr
    · rcases NMap.find?_modify_cases _ _ _ _ hq with ⟨r, hr, rfl⟩ | hr
      · simpa using h.allPublic a r hr
      · exact h.allPublic a p hr
  · intro k
    exact h.noRequests k
  · intro pid p hp
    rw [posts_execute_unfollow] at hp
    rw [users_isSome_execute_unfollow]
    exact h.authorHasProfile pid p hp
  · intro pid p hp
    rw [posts_execute_unfollow] at hp
    exact h.postsIndexed pid p hp

@[simp] theorem NMap.isSome_modify {β : Type} (m : NMap β) (k : Nat)
    (g : β → β) (a : Nat) :
    ((m.modify k g).find? a).isSome = (m.find? a).isSome := by
  simp only [NMap.find?_modify]
  split <;> simp

theorem contains_ensure_user_profile (s : SocialNetworkState) (u now : Nat) :
    (ensure_user_profile s u now).users.contains u = true := by
  unfold ensure_user_profile NMap.contains
  split
  next hc => exact hc
  · simp

theorem inv_ensure_user_profile (s : SocialNetworkState) (u now : Nat)
    (h : Inv s) : Inv (ensure_user_profile s u now) := by
  unfold ensure_user_profile
  split
  · exact h
  next hnc =>
    refine ⟨h.symm, h.noSelf, h.idxFollowing, h.idxFollowers, h.blockedEmpty,
      h.blockedByEmpty, ?_, h.noRequests, ?_, ?_⟩
    · intro a p hp
      simp only [NMap.find?_insert] at hp
      split at hp
      · cases hp
        simp [PrivacySettings.default]
      · exact h.allPublic a p hp
    · intro pid p hp
      have := h.authorHasProfile pid p hp
      simp only [NMap.find?_insert]
      split
      · simp
      · exact this
    · intro pid p hp
      have hidx := h.postsIndexed pid p hp
      have hprof := h.authorHasProfile pid p hp
      simp only [NMap.find?_insert]
      split
      next heq =>
        exfalso
        rw [heq] at hprof
        simp [NMap.contains] at hnc
        rw [hnc] at hprof
        simp at hprof
      · exact hidx

theorem inv_create_post (s : SocialNetworkState) (caller : Nat)
    (content : String) (visibility : Option PostVisibility) (now : Nat)
    (h : Inv s) : Inv (create_post s caller content visibility now).1 := by
  unfold create_post
  split
  · exact h
  next user_id _ =>
    split
    · exact h
    split
    · exact h
    have h1 : Inv (ensure_user_profile s user_id now) :=
      inv_ensure_user_profile s user_id now h
    have hc : ((ensure_user_profile s user_id now).users.find? user_id).isSome = true :=
      contains_ensure_user_profile s user_id now
    refine ⟨h1.symm, h1.noSelf, h1.idxFollowing, h1.idxFollowers,
      h1.blockedEmpty, h1.blockedByEmpty, ?_, h1.noRequests, ?_, ?_⟩
    · intro a p hp
      rcases NMap.find?_modify_cases _ _ _ _ hp with ⟨q, hq, rfl⟩ | hq
      · simpa using h1.allPublic a q hq
      · exact h1.allPublic a p hq
    · intro pid p hp
      simp only [NMap.find?_insert] at hp
      simp only [NMap.isSome_modify]
      split at hp
      · cases hp
        exact hc
      · exact h1.authorHasProfile pid p hp
    · intro pid p hp
      simp only [NMap.find?_insert] at hp
      simp only [NMap.find?_upsert]
      split at hp
      next heq =>
        cases hp
        subst heq
        simp
      next hne =>
        have hidx := h1.postsIndexed pid p hp
        split
        next heq2 =>
          rw [heq2] at hidx
          simp only [Option.getD_some]
          exact List.mem_append_left _ hidx
        · exact hidx

theorem inv_like_post (s : SocialNetworkState) (caller pid now : Nat)
    (h : Inv s) : Inv (like_post s caller pid now).1 := by
  unfold like_post
  split
  · exact h
  next user_id _ =>
    split
    · exact h
    split
    · exact h
    next post hfind =>
      split
      · exact h
      refine ⟨h.symm, h.noSelf, h.idxFollowing, h.idxFollowers, h.blockedEmpty,
        h.blockedByEmpty, h.allPublic, h.noRequests, ?_, ?_⟩
      · intro pid' p hp
        rcases NMap.find?_modify_cases _ _ _ _ hp with ⟨q, hq, rfl⟩ | hq
        · simpa using h.authorHasProfile pid' q hq
        · exact h.authorHasProfile pid' p hq
      · intro pid' p hp
        rcases NMap.find?_modify_cases _ _ _ _ hp with ⟨q, hq, rfl⟩ | hq
        · simpa using h.postsIndexed pid' q hq
        · exact h.postsIndexed pid' p hq

theorem inv_unlike_post (s : SocialNetworkState) (caller pid now : Nat)
    (h : Inv s) : Inv (unlike_post s caller pid now).1 := by
  unfold unlike_post
  split
  · exact h
  next user_id _ =>
    split
    · exact h
    next post hfind =>
      split
      · exact ⟨h.symm, h.noSelf, h.idxFollowing, h.idxFollowers, h.blockedEmpty,
          h.blockedByEmpty, h.allPublic, h.noRequests, h.authorHasProfile,
          h.postsIndexed⟩
      refine ⟨h.symm, h.noSelf, h.idxFollowing, h.idxFollowers, h.blockedEmpty,
        h.blockedByEmpty, h.allPublic, h.noRequests, ?_, ?_⟩
      · intro pid' p hp
        rcases NMap.find?_modify_cases _ _ _ _ hp with ⟨q, hq, rfl⟩ | hq
        · simpa using h.authorHasProfile pid' q hq
        · exact h.authorHasProfile pid' p hq
      · intro pid' p hp
        rcases NMap.find?_modify_cases _ _ _ _ hp with ⟨q, hq, rfl⟩ | hq
        · simpa using h.postsIndexed pid' q hq
        · exact h.postsIndexed pid' p hq

theorem inv_add_comment (s : SocialNetworkState) (caller pid : Nat)
    (content : String) (now : Nat) (h : Inv s) :
    Inv (add_comment s caller pid content now).1 := by
  unfold add_comment
  split
  · exact h
  next user_id _ =>
    split
    · exact h
    split
    · exact h
    split
    · exact h
    next post hfind =>
      refine ⟨h.symm, h.noSelf, h.idxFollowing, h.idxFollowers, h.blockedEmpty,
        h.blockedByEmpty, h.allPublic, h.noRequests, ?_, ?_⟩
      · intro pid' p hp
        rcases NMap.find?_modify_cases _ _ _ _ hp with ⟨q, hq, rfl⟩ | hq
        · simpa using h.authorHasProfile pid' q hq
        · exact h.authorHasProfile pid' p hq
      · intro pid' p hp
        rcases NMap.find?_modify_cases _ _ _ _ hp with ⟨q, hq, rfl⟩ | hq
        · simpa using h.postsIndexed pid' q hq
        · exact h.postsIndexed pid' p hq

theorem inv_follow_user (s : SocialNetworkState) (caller target now : Nat)
    (h : Inv s) : Inv (follow_user s caller target now).1 := by
  unfold follow_user
  split
  · exact h
  next follower _ =>
    split
    · exact h
    next hne =>
      split
      · exact h
      next tp hfind =>
        split
        · exact h
        split
        · exact h
        split
        · exact h
        split
        · exact inv_execute_follow s follower target now h hne
        next hvis =>
          exact absurd (h.allPublic target tp hfind) (by simp [hvis])
        next hvis =>
          exact absurd (h.allPublic target tp hfind) (by simp [hvis])

theorem inv_unfollow_user (s : SocialNetworkState) (caller target now : Nat)
    (h : Inv s) : Inv (unfollow_user s caller target now).1 := by
  unfold unfollow_user
  split
  · exact h
  next follower _ =>
    split
    · exact h
    split
    · exact h
    exact inv_execute_unfollow s follower target now h

theorem inv_approve_follow_request (s : SocialNetworkState)
    (caller rid now : Nat) (h : Inv s) :
    Inv (approve_follow_request s caller rid now).1 := by
  unfold approve_follow_request
  split
  · exact h
  next target_id _ =>
    split
    · exact h
    next request hfind =>
      exact absurd hfind (by simp [h.noRequests rid])

theorem inv_reject_follow_request (s : SocialNetworkState)
    (caller rid now : Nat) (h : Inv s) :
    Inv (reject_follow_request s caller rid now).1 := by
  unfold reject_follow_request
  split
  · exact h
  next target_id _ =>
    split
    · exact h
    next request hfind =>
      exact absurd hfind (by simp [h.noRequests rid])

/-- Every reachable state satisfies the invariant. -/
theorem inv_reachable {s : SocialNetworkState} (hr : Reachable s) : Inv s := by
  induction hr with
  | init => exact inv_initState
  | step _ hstep ih =>
    cases hstep with
    | create_user_profile caller username bio avatar now =>
      exact inv_create_user_profile _ caller username bio avatar now ih
    | update_user_profile caller username bio avatar now =>
      exact inv_update_user_profile _ caller username bio avatar now ih
    | create_post caller content visibility now =>
      exact inv_create_post _ caller content visibility now ih
    | like_post caller pid now => exact inv_like_post _ caller pid now ih
    | unlike_post caller pid now => exact inv_unlike_post _ caller pid now ih
    | add_comment caller pid content now =>
      exact inv_add_comment _ caller pid content now ih
    | follow_user caller target now =>
      exact inv_follow_user _ caller target now ih
    | unfollow_user caller target now =>
      exact inv_unfollow_user _ caller target now ih
    | approve_follow_request caller rid now =>
      exact inv_approve_follow_request _ caller rid now ih
    | reject_follow_request caller rid now =>
      exact inv_reject_follow_request _ caller rid now ih

/-! ## Claim theorems -/

/-- A small reachable scenario shared by several witnesses: user 2
registers as "bob" and user 1 (who has no profile) follows user 2. -/
def stateW1 : SocialNetworkState :=
  (create_user_profile initState 2 "bob" none none 10).1

def stateW2 : SocialNetworkState := (follow_user stateW1 1 2 20).1

theorem reachable_stateW1 : Reachable stateW1 :=
  Reachable.init.step (Step.create_user_profile initState 2 "bob" none none 10)

theorem reachable_stateW2 : Reachable stateW2 :=
  reachable_stateW1.step (Step.follow_user stateW1 1 2 20)

/-- C2: after any sequence of public operations from the initial empty
state (which includes any sequence of follow/unfollow/approve
operations), `b ∈ following(a) ⇔ a ∈ followers(b)` for all users. -/
theorem C2_edge_symmetry (s : SocialNetworkState) (hr : Reachable s)
    (a b : Nat) : b ∈ s.followingOf a ↔ a ∈ s.followersOf b :=
  (inv_reachable hr).symm a b

theorem C2_edge_symmetry_witness :
    (2 ∈ stateW2.followingOf 1 ↔ 1 ∈ stateW2.followersOf 2) ∧
      2 ∈ stateW2.followingOf 1 ∧ 1 ∈ stateW2.followersOf 2 :=
  ⟨C2_edge_symmetry stateW2 reachable_stateW2 1 2, by decide, by decide⟩

/-- C10: in every reachable state the two redundant index maps agree with
the authoritative connection sets: `b ∈ following_index(a)` iff
`b ∈ social_connections(a).following`, and `a ∈ followers_index(b)` iff
`a ∈ social_connections(b).followers`. -/
theorem C10_index_coherence (s : SocialNetworkState) (hr : Reachable s)
    (a b : Nat) :
    (b ∈ s.followingIdxOf a ↔ b ∈ s.followingOf a) ∧
      (a ∈ s.followersIdxOf b ↔ a ∈ s.followersOf b) := by
  have h := inv_reachable hr
  rw [h.idxFollowing a, h.idxFollowers b]
  exact ⟨Iff.rfl, Iff.rfl⟩

theorem C10_index_coherence_witness :
    ((2 ∈ stateW2.followingIdxOf 1 ↔ 2 ∈ stateW2.followingOf 1) ∧
      (1 ∈ stateW2.followersIdxOf 2 ↔ 1 ∈ stateW2.followersOf 2)) ∧
      2 ∈ stateW2.followingIdxOf 1 :=
  ⟨C10_index_coherence stateW2 reachable_stateW2 1 2, by decide⟩

/-- C9: `follow_user` called by an authenticated user `a` on target `a`
always fails with the self-follow error and leaves the state unchanged;
consequently no reachable state has `a ∈ following(a)`. -/
theorem C9_self_follow_rejection :
    (∀ (s : SocialNetworkState) (a now : Nat), a ≠ anonPrincipal →
        follow_user s a a now = (s, .error "Cannot follow yourself")) ∧
      ∀ s : SocialNetworkState, Reachable s → ∀ a, a ∉ s.followingOf a := by
  constructor
  · intro s a now ha
    unfold follow_user authenticate_user
    simp [ha]
  · intro s hr a
    exact (inv_reachable hr).noSelf a

theorem C9_self_follow_rejection_witness :
    follow_user stateW2 5 5 30 = (stateW2, .error "Cannot follow yourself") ∧
      5 ∉ stateW2.followingOf 5 :=
  ⟨C9_self_follow_rejection.1 stateW2 5 30 (by decide),
    C9_self_follow_rejection.2 stateW2 reachable_stateW2 5⟩

/-- The C1 failing run: after `stateW2` (user 1 follows user 2 while
having no profile yet), user 1 now registers a profile. -/
def stateC1 : SocialNetworkState :=
  (create_user_profile stateW2 1 "alice" none none 30).1

/-- C1 fails on the code: the sequence
`create_user_profile(2,"bob")`; `follow_user(1→2)`;
`create_user_profile(1,"alice")` — all successful public operations from
the initial empty state — ends in a state where user 1 has a profile with
`following_count = 0` although `|following(1)| = 1`:  `execute_follow`
silently skips the counter update when the follower has no profile, and
the later profile creation resets the counter to zero. -/
theorem C1_counter_drift :
    Reachable stateC1 ∧
      (create_user_profile stateW2 1 "alice" none none 30).2.isOk = true ∧
      (stateC1.users.find? 1).map (·.following_count) = some 0 ∧
      (stateC1.followingOf 1).card = 1 := by
  refine ⟨?_, by decide, by decide, by decide⟩
  exact reachable_stateW2.step
    (Step.create_user_profile stateW2 1 "alice" none none 30)

/-- C6: (i)/(ii) `approve_follow_request` and `reject_follow_request` on a
request whose status is no longer `Pending` fail with the not-pending
error and return the state unchanged, in every state; (iii) at every
reachable state there is at most one `Pending` request per
(requester, target) pair; (iv) the guard enforcing (iii):
`create_follow_request` refuses to create a second `Pending` request for
a pair that already has one, in every state. -/
theorem C6_request_lifecycle :
    (∀ (s : SocialNetworkState) (caller rid now : Nat) (r : FollowRequest),
        caller ≠ anonPrincipal → s.follow_requests.find? rid = some r →
        r.target = caller → r.status ≠ .Pending →
        approve_follow_request s caller rid now =
          (s, .error "Follow request is not pending")) ∧
    (∀ (s : SocialNetworkState) (caller rid now : Nat) (r : FollowRequest),
        caller ≠ anonPrincipal → s.follow_requests.find? rid = some r →
        r.target = caller → r.status ≠ .Pending →
        reject_follow_request s caller rid now =
          (s, .error "Follow request is not pending")) ∧
    (∀ s : SocialNetworkState, Reachable s → ∀ k1 k2 r1 r2,
        s.follow_requests.find? k1 = some r1 →
        s.follow_requests.find? k2 = some r2 →
        r1.requester = r2.requester → r1.target = r2.target →
        r1.status = .Pending → r2.status = .Pending → k1 = k2) ∧
    (∀ (s : SocialNetworkState) (requester target : Nat)
        (message : Option String) (now k : Nat) (r : FollowRequest),
        s.follow_requests.find? k = some r → r.requester = requester →
        r.target = target → r.status = .Pending →
        create_follow_request s requester target message now =
          (s, .error "Follow request already pending")) := by
  refine ⟨?_, ?_, ?_, ?_⟩
  · intro s caller rid now r hc hfind htgt hst
    unfold approve_follow_request authenticate_user
    simp only [if_neg hc]
    rw [hfind]
    simp [htgt, hst]
  · intro s caller rid now r hc hfind htgt hst
    unfold reject_follow_request authenticate_user
    simp only [if_neg hc]
    rw [hfind]
    simp [htgt, hst]
  · intro s hr k1 k2 r1 r2 h1 _ _ _ _ _
    rw [(inv_reachable hr).noRequests k1] at h1
    cases h1
  · intro s requester target message now k r hfind hreq htgt hst
    unfold create_follow_request
    have hany : s.follow_requests.anyValue (fun req =>
        decide (req.requester = requester ∧ req.target = target ∧
          req.status = .Pending)) = true := by
      unfold NMap.anyValue
      rw [decide_eq_true_iff]
      refine ⟨k, ?_, ?_⟩
      · rw [NMap.mem_dom_iff, hfind]
        rfl
      · rw [hfind]
        simp [hreq, htgt, hst]
    rw [hany]
    simp

/-- A state holding one already-approved follow request, for the C6
witness. -/
def stateC6 : SocialNetworkState :=
  { initState with
      follow_requests := NMap.empty.insert 0
        { id := 0, requester := 1, target := 2, created_at := 5,
          status := .Approved, message := none },
      next_follow_request_id := 1 }

/-- A state holding one pending follow request, for the C6 witness. -/
def stateC6p : SocialNetworkState :=
  { initState with
      follow_requests := NMap.empty.insert 0
        { id := 0, requester := 1, target := 2, created_at := 5,
          status := .Pending, message := none },
      next_follow_request_id := 1 }

theorem C6_request_lifecycle_witness :
    approve_follow_request stateC6 2 0 9 =
        (stateC6, .error "Follow request is not pending") ∧
      reject_follow_request stateC6 2 0 9 =
        (stateC6, .error "Follow request is not pending") ∧
      create_follow_request stateC6p 1 2 none 9 =
        (stateC6p, .error "Follow request already pending") :=
  ⟨C6_request_lifecycle.1 stateC6 2 0 9 _ (by decide) rfl (by decide) (by decide),
    C6_request_lifecycle.2.1 stateC6 2 0 9 _ (by decide) rfl (by decide) (by decide),
    C6_request_lifecycle.2.2.2 stateC6p 1 2 none 9 0 _ rfl (by decide) (by decide)
      (by decide)⟩

/-- Reachable state with a `FollowersOnly` post: after `stateW2`, user 2
publishes post 0 with visibility `FollowersOnly`.  User 3 is neither the
author nor a follower of user 2. -/
def stateC3 : SocialNetworkState :=
  (create_post stateW2 2 "hello" (some .FollowersOnly) 40).1

theorem reachable_stateC3 : Reachable stateC3 :=
  reachable_stateW2.step
    (Step.create_post stateW2 2 "hello" (some .FollowersOnly) 40)

/-- C3 as stated is false: post 0 of `stateC3` is `FollowersOnly`,
viewer 3 is neither its author (2) nor in the author's followers set
(`{1}`), yet `get_post` returns the post to viewer 3 instead of `None`
(the source's single-post filter only checks that the viewer is not
anonymous: "For now, allow all (following system to be implemented)"). -/
theorem C3_counterexample :
    (stateC3.posts.find? 0).map (·.visibility) = some .FollowersOnly ∧
      (stateC3.posts.find? 0).map (·.author_id) = some 2 ∧
      (3 : Nat) ≠ 2 ∧ 3 ∉ stateC3.followersOf 2 ∧
      get_post stateC3 3 0 = stateC3.posts.find? 0 ∧
      (get_post stateC3 3 0).isSome = true := by decide

/-- C3 amended: `get_post`/`get_user_posts` do not consult the followers
set.  A `FollowersOnly` post is returned by `get_post` to every
authenticated viewer (follower or not) and hidden only from the anonymous
viewer (and absent from `get_user_posts` for the anonymous viewer);
`Public` posts are always returned; `Unlisted` posts are returned exactly
when the viewer is the author. -/
theorem C3_amended (s : SocialNetworkState) (v pid : Nat) (p : Post)
    (hfind : s.posts.find? pid = some p) :
    (p.visibility = .FollowersOnly →
      (v ≠ anonPrincipal → get_post s v pid = some p) ∧
      (v = anonPrincipal → get_post s v pid = none ∧
        ∀ uid lim off, p ∉ get_user_posts s v uid lim off)) ∧
    (p.visibility = .Public → get_post s v pid = some p) ∧
    (p.visibility = .Unlisted →
      (get_post s v pid = some p ↔ v = p.author_id)) := by
  refine ⟨fun hvis => ⟨fun hv => ?_, fun hv => ⟨?_, ?_⟩⟩,
    fun hvis => ?_, fun hvis => ?_⟩
  · unfold get_post
    rw [hfind]
    simp [Option.filter, postVisibleSingle, hvis, bne_iff_ne, hv]
  · unfold get_post
    rw [hfind]
    simp [Option.filter, postVisibleSingle, hvis, hv]
  · intro uid lim off hmem
    unfold get_user_posts at hmem
    rcases hfud : s.user_posts.find? uid with - | pids
    · rw [hfud] at hmem
      simp at hmem
    · rw [hfud] at hmem
      simp only [List.mem_filter] at hmem
      have := hmem.2
      rw [postVisibleSingle] at this
      rw [hvis] at this
      rw [hv] at this
      simp at this
  · unfold get_post
    rw [hfind]
    simp [Option.filter, postVisibleSingle, hvis]
  · unfold get_post
    rw [hfind]
    simp only [Option.filter, postVisibleSingle, hvis]
    constructor
    · intro h
      by_cases hb : v == p.author_id
      · exact beq_iff_eq.mp hb
      · rw [if_neg ?_] at h
        · cases h
        · simpa using hb
    · intro h
      have hb : (v == p.author_id) = true := beq_iff_eq.mpr h
      rw [if_pos hb]

theorem C3_amended_witness :
    get_post stateC3 3 0 = some ((stateC3.posts.find? 0).getD
      { id := 0, author_id := 0, content := "", created_at := 0,
        updated_at := 0, like_count := 0, comment_count := 0,
        visibility := .Public, comments_count := 0, likes_count := 0,
        reposts_count := 0, tips_received := 0, edited_at := none }) := by
  have h := C3_amended stateC3 3 0
    ((stateC3.posts.find? 0).getD
      { id := 0, author_id := 0, content := "", created_at := 0,
        updated_at := 0, like_count := 0, comment_count := 0,
        visibility := .Public, comments_count := 0, likes_count := 0,
        reposts_count := 0, tips_received := 0, edited_at := none })
    (by decide)
  exact (h.1 (by decide)).1 (by decide)

/-- `follow_user` against an existing `Private`-profile target with all
guards passing delegates to `create_follow_request` and creates no edge. -/
theorem follow_user_private (s : SocialNetworkState) (A B now : Nat)
    (profB : UserProfile) (hA : A ≠ anonPrincipal) (hAB : A ≠ B)
    (hfindB : s.users.find? B = some profB)
    (hvis : profB.privacy_settings.profile_visibility = .Private)
    (hnf : B ∉ s.followingOf A) (hnb : A ∉ s.blockedOf B)
    (hcard : (s.followingOf A).card < MAX_FOLLOWING_LIMIT) :
    follow_user s A B now = create_follow_request s A B none now := by
  unfold follow_user authenticate_user
  simp only [if_neg hA, if_neg hAB, hfindB, if_neg hnf, if_neg hnb,
    if_neg (not_le.mpr hcard), hvis]

/-- `create_follow_request` with no duplicate pending request and the
pending cap not reached stores exactly one new `Pending` request. -/
theorem create_follow_request_success (s : SocialNetworkState)
    (requester target : Nat) (message : Option String) (now : Nat)
    (hany : s.follow_requests.anyValue (fun req =>
      decide (req.requester = requester ∧ req.target = target ∧
        req.status = .Pending)) = false)
    (hcnt : s.follow_requests.countValues (fun req =>
      decide (req.requester = requester ∧ req.status = .Pending)) <
        MAX_PENDING_REQUESTS) :
    create_follow_request s requester target message now =
      ({ s with
          follow_requests := s.follow_requests.insert s.next_follow_request_id
            { id := s.next_follow_request_id, requester := requester,
              target := target, created_at := now, status := .Pending,
              message := message },
          next_follow_request_id := satSucc64 s.next_follow_request_id },
       .ok ()) := by
  unfold create_follow_request
  rw [hany]
  simp only [Bool.false_eq_true, if_false, if_neg (not_le.mpr hcnt)]

/-- `approve_follow_request` on a pending request whose target is the
caller executes the follow and marks the request `Approved`. -/
theorem approve_follow_request_success (s : SocialNetworkState)
    (caller rid now : Nat) (r : FollowRequest) (hc : caller ≠ anonPrincipal)
    (hfind : s.follow_requests.find? rid = some r) (ht : r.target = caller)
    (hp : r.status = .Pending) :
    approve_follow_request s caller rid now =
      ({ execute_follow s r.requester r.target now with
          follow_requests :=
            (execute_follow s r.requester r.target now).follow_requests.modify
              rid (fun req => { req with status := .Approved }) },
       .ok ()) := by
  unfold approve_follow_request authenticate_user
  simp only [if_neg hc]
  rw [hfind]
  simp [ht, hp]

/-- `approve_follow_request` on a non-pending request fails with the
not-pending error and changes nothing. -/
theorem approve_follow_request_not_pending (s : SocialNetworkState)
    (caller rid now : Nat) (r : FollowRequest) (hc : caller ≠ anonPrincipal)
    (hfind : s.follow_requests.find? rid = some r) (ht : r.target = caller)
    (hp : r.status ≠ .Pending) :
    approve_follow_request s caller rid now =
      (s, .error "Follow request is not pending") := by
  unfold approve_follow_request authenticate_user
  simp only [if_neg hc]
  rw [hfind]
  simp [ht, hp]

/-- C5: following a `Private`-profile user creates exactly one `Pending`
request and no edge; the target's approval then creates exactly one edge
(A follows B) and marks the request `Approved`; a repeated approval of
the same request fails with the not-pending (`InvalidState`) error.  The
hypotheses are `follow_user`'s and `create_follow_request`'s own guards
(fresh pair, caps not reached). -/
theorem C5_private_follow_workflow (s : SocialNetworkState)
    (A B now now2 now3 : Nat) (profB : UserProfile)
    (hA : A ≠ anonPrincipal) (hB : B ≠ anonPrincipal) (hAB : A ≠ B)
    (hfindB : s.users.find? B = some profB)
    (hvis : profB.privacy_settings.profile_visibility = .Private)
    (hnf : B ∉ s.followingOf A) (hnb : A ∉ s.blockedOf B)
    (hcard : (s.followingOf A).card < MAX_FOLLOWING_LIMIT)
    (hany : s.follow_requests.anyValue (fun req =>
      decide (req.requester = A ∧ req.target = B ∧
        req.status = .Pending)) = false)
    (hcnt : s.follow_requests.countValues (fun req =>
      decide (req.requester = A ∧ req.status = .Pending)) <
        MAX_PENDING_REQUESTS) :
    (follow_user s A B now).2 = .ok () ∧
    (follow_user s A B now).1.follow_requests.find? s.next_follow_request_id
      = some { id := s.next_follow_request_id, requester := A, target := B,
               created_at := now, status := .Pending, message := none } ∧
    (∀ k, k ≠ s.next_follow_request_id →
      (follow_user s A B now).1.follow_requests.find? k =
        s.follow_requests.find? k) ∧
    (follow_user s A B now).1.social_connections = s.social_connections ∧
    (approve_follow_request (follow_user s A B now).1 B
        s.next_follow_request_id now2).2 = .ok () ∧
    (approve_follow_request (follow_user s A B now).1 B
        s.next_follow_request_id now2).1.followingOf A =
      insert B (s.followingOf A) ∧
    (approve_follow_request (follow_user s A B now).1 B
        s.next_follow_request_id now2).1.followersOf B =
      insert A (s.followersOf B) ∧
    (∀ u, u ≠ A → (approve_follow_request (follow_user s A B now).1 B
        s.next_follow_request_id now2).1.followingOf u = s.followingOf u) ∧
    (∀ u, u ≠ B → (approve_follow_request (follow_user s A B now).1 B
        s.next_follow_request_id now2).1.followersOf u = s.followersOf u) ∧
    ((approve_follow_request (follow_user s A B now).1 B
        s.next_follow_request_id now2).1.follow_requests.find?
          s.next_follow_request_id).map (·.status) = some .Approved ∧
    approve_follow_request (approve_follow_request (follow_user s A B now).1
        B s.next_follow_request_id now2).1 B s.next_follow_request_id now3 =
      ((approve_follow_request (follow_user s A B now).1 B
          s.next_follow_request_id now2).1,
       .error "Follow request is not pending") := by
  have hfu : follow_user s A B now = create_follow_request s A B none now :=
    follow_user_private s A B now profB hA hAB hfindB hvis hnf hnb hcard
  have hcr := create_follow_request_success s A B none now hany hcnt
  have hs1 : follow_user s A B now =
      ({ s with
          follow_requests := s.follow_requests.insert s.next_follow_request_id
            { id := s.next_follow_request_id, requester := A, target := B,
              created_at := now, status := .Pending, message := none },
          next_follow_request_id := satSucc64 s.next_follow_request_id },
       .ok ()) := hfu.trans hcr
  rw [hs1]
  have hfind1 : ({ s with
      follow_requests := s.follow_requests.insert s.next_follow_request_id
        { id := s.next_follow_request_id, requester := A, target := B,
          created_at := now, status := .Pending, message := none },
      next_follow_request_id :=
        satSucc64 s.next_follow_request_id } :
      SocialNetworkState).follow_requests.find? s.next_follow_request_id =
      some { id := s.next_follow_request_id, requester := A, target := B,
             created_at := now, status := .Pending, message := none } := by
    simp
  have happ := approve_follow_request_success _ B s.next_follow_request_id
    now2 _ hB hfind1 rfl rfl
  rw [happ]
  refine ⟨rfl, by simp, ?_, rfl, rfl, ?_, ?_, ?_, ?_, ?_, ?_⟩
  · intro k hk
    simp [hk]
  · rw [show ∀ t : SocialNetworkState, ∀ reqs,
        ({ t with follow_requests := reqs } :
          SocialNetworkState).followingOf A = t.followingOf A
      from fun t reqs => rfl]
    rw [followingOf_execute_follow, if_pos rfl]
    rfl
  · rw [show ∀ t : SocialNetworkState, ∀ reqs,
        ({ t with follow_requests := reqs } :
          SocialNetworkState).followersOf B = t.followersOf B
      from fun t reqs => rfl]
    rw [followersOf_execute_follow, if_pos rfl]
    rfl
  · intro u hu
    rw [show ∀ t : SocialNetworkState, ∀ reqs,
        ({ t with follow_requests := reqs } :
          SocialNetworkState).followingOf u = t.followingOf u
      from fun t reqs => rfl]
    rw [followingOf_execute_follow, if_neg hu]
    rfl
  · intro u hu
    rw [show ∀ t : SocialNetworkState, ∀ reqs,
        ({ t with follow_requests := reqs } :
          SocialNetworkState).followersOf u = t.followersOf u
      from fun t reqs => rfl]
    rw [followersOf_execute_follow, if_neg hu]
    rfl
  · rw [show ∀ t : SocialNetworkState, ∀ reqs,
        ({ t with follow_requests := reqs } :
          SocialNetworkState).follow_requests = reqs
      from fun t reqs => rfl]
    rw [NMap.find?_modify, if_pos rfl, follow_requests_execute_follow]
    rw [NMap.find?_insert, if_pos rfl]
    rfl
  · refine approve_follow_request_not_pending _ B s.next_follow_request_id
      now3 { id := s.next_follow_request_id, requester := A, target := B,
             created_at := now, status := .Approved, message := none }
      hB ?_ rfl (by simp)
    rw [show ∀ t : SocialNetworkState, ∀ reqs,
        ({ t with follow_requests := reqs } :
          SocialNetworkState).follow_requests = reqs
      from fun t reqs => rfl]
    rw [NMap.find?_modify, if_pos rfl, follow_requests_execute_follow]
    rw [NMap.find?_insert, if_pos rfl]
    rfl

/-- A state with a `Private`-profile user 2, for the C5 witness (no public
operation can produce a non-`Public` profile, so the workflow is exercised
on a directly constructed state). -/
def profPrivC5 : UserProfile :=
  { id := 2, username := "bob", bio := "", avatar := "", created_at := 0,
    updated_at := 0, follower_count := 0, following_count := 0,
    post_count := 0,
    privacy_settings :=
      { profile_visibility := .Private, message_privacy := .FollowersOnly,
        show_social_graph := true, searchable := true },
    verification_status := .Unverified }

def stateC5 : SocialNetworkState :=
  { initState with users := NMap.empty.insert 2 profPrivC5 }

theorem C5_private_follow_workflow_witness :
    (follow_user stateC5 1 2 7).2 = .ok () ∧
      (follow_user stateC5 1 2 7).1.follow_requests.find? 0 =
        some { id := 0, requester := 1, target := 2, created_at := 7,
               status := .Pending, message := none } ∧
      (approve_follow_request (follow_user stateC5 1 2 7).1 2 0 8).2 =
        .ok () ∧
      approve_follow_request
          (approve_follow_request (follow_user stateC5 1 2 7).1 2 0 8).1
          2 0 9 =
        ((approve_follow_request (follow_user stateC5 1 2 7).1 2 0 8).1,
         .error "Follow request is not pending") := by
  have h := C5_private_follow_workflow stateC5 1 2 7 8 9 profPrivC5
    (by decide) (by decide) (by decide) rfl rfl (by decide) (by decide)
    (by decide) (by decide) (by decide)
  exact ⟨h.1, h.2.1, h.2.2.2.2.1, h.2.2.2.2.2.2.2.2.2.2⟩

/-- `follow_user` against an existing `Public`-profile target with all
guards passing performs `execute_follow` directly. -/
theorem follow_user_public (s : SocialNetworkState) (A B now : Nat)
    (profB : UserProfile) (hA : A ≠ anonPrincipal) (hAB : A ≠ B)
    (hfindB : s.users.find? B = some profB)
    (hvis : profB.privacy_settings.profile_visibility = .Public)
    (hnf : B ∉ s.followingOf A) (hnb : A ∉ s.blockedOf B)
    (hcard : (s.followingOf A).card < MAX_FOLLOWING_LIMIT) :
    follow_user s A B now = (execute_follow s A B now, .ok ()) := by
  unfold follow_user authenticate_user
  simp only [if_neg hA, if_neg hAB, hfindB, if_neg hnf, if_neg hnb,
    if_neg (not_le.mpr hcard), hvis]

/-- `unfollow_user` with an existing target and an existing edge performs
`execute_unfollow`. -/
theorem unfollow_user_success (s : SocialNetworkState) (A B now : Nat)
    (hA : A ≠ anonPrincipal) (hcB : s.users.contains B = true)
    (hf : B ∈ s.followingOf A) :
    unfollow_user s A B now = (execute_unfollow s A B now, .ok ()) := by
  unfold unfollow_user authenticate_user
  simp only [if_neg hA, hcB, Bool.not_true, Bool.false_eq_true, if_false,
    if_neg (not_not_intro hf)]

/-- `unfollow_user` without an existing edge fails with the not-following
error and changes nothing. -/
theorem unfollow_user_not_following (s : SocialNetworkState) (A B now : Nat)
    (hA : A ≠ anonPrincipal) (hcB : s.users.contains B = true)
    (hnf : B ∉ s.followingOf A) :
    unfollow_user s A B now = (s, .error "Not following this user") := by
  unfold unfollow_user authenticate_user
  simp only [if_neg hA, hcB, Bool.not_true, Bool.false_eq_true, if_false,
    if_pos hnf]

theorem users_find?_execute_follow_follower (s : SocialNetworkState)
    (A B now : Nat) (hAB : A ≠ B) :
    (execute_follow s A B now).users.find? A =
      (s.users.find? A).map fun p =>
        { p with following_count := satSucc64 p.following_count,
                 updated_at := now } := by
  unfold execute_follow
  simp only [NMap.find?_modify, if_neg hAB, if_pos rfl]
  simp

theorem users_find?_execute_follow_target (s : SocialNetworkState)
    (A B now : Nat) (hAB : A ≠ B) :
    (execute_follow s A B now).users.find? B =
      (s.users.find? B).map fun p =>
        { p with follower_count := satSucc64 p.follower_count,
                 updated_at := now } := by
  unfold execute_follow
  simp only [NMap.find?_modify, if_pos rfl, if_neg (Ne.symm hAB)]
  simp

theorem users_find?_execute_unfollow_follower (s : SocialNetworkState)
    (A B now : Nat) (hAB : A ≠ B) :
    (execute_unfollow s A B now).users.find? A =
      (s.users.find? A).map fun p =>
        { p with following_count := p.following_count - 1,
                 updated_at := now } := by
  unfold execute_unfollow
  simp only [NMap.find?_modify, if_neg hAB, if_pos rfl]
  simp

theorem users_find?_execute_unfollow_target (s : SocialNetworkState)
    (A B now : Nat) (hAB : A ≠ B) :
    (execute_unfollow s A B now).users.find? B =
      (s.users.find? B).map fun p =>
        { p with follower_count := p.follower_count - 1,
                 updated_at := now } := by
  unfold execute_unfollow
  simp only [NMap.find?_modify, if_pos rfl, if_neg (Ne.symm hAB)]
  simp

/-- C8: when `a` currently follows `b` (and `b` has a profile), unfollow
removes `b` from `a`'s following set and `a` from `b`'s followers set,
touches nobody else's sets, and decrements both corresponding profile
counters by exactly one (ℕ-truncated, matching `saturating_sub`); an
immediate second unfollow fails with the not-following error and returns
the state unchanged.  Moreover a follow of a `Public` profile immediately
followed by an unfollow restores the pre-follow sets and counters (the
counter hypotheses rule out `u64` saturation). -/
theorem C8_unfollow_roundtrip :
    (∀ (s : SocialNetworkState) (A B now : Nat), A ≠ anonPrincipal → A ≠ B →
      s.users.contains B = true → B ∈ s.followingOf A →
      (unfollow_user s A B now).2 = .ok () ∧
      (unfollow_user s A B now).1.followingOf A = (s.followingOf A).erase B ∧
      (unfollow_user s A B now).1.followersOf B = (s.followersOf B).erase A ∧
      (∀ u, u ≠ A →
        (unfollow_user s A B now).1.followingOf u = s.followingOf u) ∧
      (∀ u, u ≠ B →
        (unfollow_user s A B now).1.followersOf u = s.followersOf u) ∧
      ((unfollow_user s A B now).1.users.find? A).map (·.following_count) =
        (s.users.find? A).map (fun p => p.following_count - 1) ∧
      ((unfollow_user s A B now).1.users.find? B).map (·.follower_count) =
        (s.users.find? B).map (fun p => p.follower_count - 1) ∧
      (∀ now', unfollow_user (unfollow_user s A B now).1 A B now' =
        ((unfollow_user s A B now).1,
         .error "Not following this user"))) ∧
    (∀ (s : SocialNetworkState) (A B now now2 : Nat) (profB : UserProfile),
      A ≠ anonPrincipal → A ≠ B → s.users.find? B = some profB →
      profB.privacy_settings.profile_visibility = .Public →
      B ∉ s.followingOf A → A ∉ s.followersOf B → A ∉ s.blockedOf B →
      (s.followingOf A).card < MAX_FOLLOWING_LIMIT →
      (∀ p, s.users.find? A = some p → p.following_count < U64MAX) →
      profB.follower_count < U64MAX →
      (∀ u, (unfollow_user (follow_user s A B now).1 A B now2).1.followingOf u
        = s.followingOf u) ∧
      (∀ u, (unfollow_user (follow_user s A B now).1 A B now2).1.followersOf u
        = s.followersOf u) ∧
      ((unfollow_user (follow_user s A B now).1 A B
          now2).1.users.find? A).map (·.following_count) =
        (s.users.find? A).map (·.following_count) ∧
      ((unfollow_user (follow_user s A B now).1 A B
          now2).1.users.find? B).map (·.follower_count) =
        (s.users.find? B).map (·.follower_count)) := by
  constructor
  · intro s A B now hA hAB hcB hf
    rw [unfollow_user_success s A B now hA hcB hf]
    refine ⟨rfl, ?_, ?_, ?_, ?_, ?_, ?_, ?_⟩
    · rw [followingOf_execute_unfollow, if_pos rfl]
    · rw [followersOf_execute_unfollow, if_pos rfl]
    · intro u hu
      rw [followingOf_execute_unfollow, if_neg hu]
    · intro u hu
      rw [followersOf_execute_unfollow, if_neg hu]
    · rw [users_find?_execute_unfollow_follower s A B now hAB]
      cases s.users.find? A <;> simp
    · rw [users_find?_execute_unfollow_target s A B now hAB]
      cases s.users.find? B <;> simp
    · intro now'
      refine unfollow_user_not_following _ A B now' hA ?_ ?_
      · unfold NMap.contains
        rw [users_isSome_execute_unfollow]
        exact hcB
      · rw [followingOf_execute_unfollow, if_pos rfl]
        simp
  · intro s A B now now2 profB hA hAB hfindB hvis hnf hnfb hnb hcard hcA hcB
    rw [follow_user_public s A B now profB hA hAB hfindB hvis hnf hnb hcard]
    have hcB' : (execute_follow s A B now).users.contains B = true := by
      unfold NMap.contains
      rw [users_isSome_execute_follow, hfindB]
      rfl
    have hf' : B ∈ (execute_follow s A B now).followingOf A := by
      rw [followingOf_execute_follow, if_pos rfl]
      exact Finset.mem_insert_self B _
    rw [unfollow_user_success _ A B now2 hA hcB' hf']
    refine ⟨?_, ?_, ?_, ?_⟩
    · intro u
      rcases eq_or_ne u A with rfl | hu
      · rw [followingOf_execute_unfollow, if_pos rfl,
          followingOf_execute_follow, if_pos rfl]
        exact Finset.erase_insert hnf
      · rw [followingOf_execute_unfollow, if_neg hu,
          followingOf_execute_follow, if_neg hu]
    · intro u
      rcases eq_or_ne u B with rfl | hu
      · rw [followersOf_execute_unfollow, if_pos rfl,
          followersOf_execute_follow, if_pos rfl]
        exact Finset.erase_insert hnfb
      · rw [followersOf_execute_unfollow, if_neg hu,
          followersOf_execute_follow, if_neg hu]
    · rw [users_find?_execute_unfollow_follower _ A B now2 hAB,
        users_find?_execute_follow_follower s A B now hAB]
      cases hfa : s.users.find? A with
      | none => simp
      | some p =>
        have hlt := hcA p hfa
        have hsat : satSucc64 p.following_count - 1 = p.following_count := by
          unfold satSucc64 U64MAX at *
          omega
        simp [hsat]
    · rw [users_find?_execute_unfollow_target _ A B now2 hAB,
        users_find?_execute_follow_target s A B now hAB, hfindB]
      have hsat : satSucc64 profB.follower_count - 1 = profB.follower_count := by
        unfold satSucc64 U64MAX at *
        omega
      simp [hsat]

/-- Reachable scenario for the C8 witness: both users register, then user
1 follows user 2. -/
def stateC8a : SocialNetworkState :=
  (create_user_profile initState 1 "alice" none none 5).1

def stateC8b : SocialNetworkState :=
  (create_user_profile stateC8a 2 "bob" none none 6).1

def stateC8c : SocialNetworkState := (follow_user stateC8b 1 2 7).1

def profAliceC8 : UserProfile :=
  { id := 1, username := "alice", bio := "", avatar := "", created_at := 5,
    updated_at := 5, follower_count := 0, following_count := 0,
    post_count := 0, privacy_settings := PrivacySettings.default,
    verification_status := .Unverified }

def profBobC8 : UserProfile :=
  { id := 2, username := "bob", bio := "", avatar := "", created_at := 6,
    updated_at := 6, follower_count := 0, following_count := 0,
    post_count := 0, privacy_settings := PrivacySettings.default,
    verification_status := .Unverified }

theorem C8_unfollow_roundtrip_witness :
    (unfollow_user stateC8c 1 2 8).2 = .ok () ∧
      ((unfollow_user stateC8c 1 2 8).1.users.find? 1).map
          (·.following_count) =
        (stateC8c.users.find? 1).map (fun p => p.following_count - 1) ∧
      unfollow_user (unfollow_user stateC8c 1 2 8).1 1 2 9 =
        ((unfollow_user stateC8c 1 2 8).1,
         .error "Not following this user") ∧
      ∀ u, (unfollow_user (follow_user stateC8b 1 2 7).1 1 2 8).1.followingOf
          u = stateC8b.followingOf u := by
  have h1 := C8_unfollow_roundtrip.1 stateC8c 1 2 8 (by decide) (by decide)
    (by decide) (by decide)
  have h2 := C8_unfollow_roundtrip.2 stateC8b 1 2 7 8 profBobC8 (by decide)
    (by decide) (by decide) (by decide) (by decide) (by decide) (by decide)
    (by decide)
    (by intro p hp
        rw [show stateC8b.users.find? 1 = some profAliceC8 from by decide]
          at hp
        cases hp
        decide)
    (by decide)
  exact ⟨h1.1, h1.2.2.2.2.2.1, h1.2.2.2.2.2.2.2 9, h2.1⟩

/-! ## Feed membership and order lemmas -/

/-- Unfolded form of `get_social_feed`. -/
theorem get_social_feed_eq (s : SocialNetworkState) (caller : Nat)
    (limit offset : Option Nat) :
    get_social_feed s caller limit offset =
      ((((feedSorted s (if caller = anonPrincipal then none
              else some caller)).map Prod.snd).drop (offset.getD 0)).take
          (min (limit.getD DEFAULT_FEED_LIMIT) MAX_FEED_LIMIT)).map
        (feedMk s (if caller = anonPrincipal then none else some caller)) :=
  rfl

/-- Membership in one author's feed contribution. -/
theorem mem_userFeedPosts {s : SocialNetworkState} {cid : Option Nat}
    {u : Nat} {q : Post} {prof : UserProfile} :
    (q, prof) ∈ userFeedPosts s cid u ↔
      s.users.find? u = some prof ∧
      (∃ pids pid, s.user_posts.find? u = some pids ∧ pid ∈ pids ∧
        s.posts.find? pid = some q) ∧
      feedVisible s cid q = true := by
  unfold userFeedPosts
  cases h1 : s.users.find? u with
  | none => simp
  | some prof' =>
    cases h2 : s.user_posts.find? u with
    | none => simp
    | some pids =>
      simp only [List.mem_map, List.mem_filter, List.mem_filterMap,
        Prod.mk.injEq, Option.some.injEq]
      constructor
      · rintro ⟨p0, ⟨⟨pid, hpid, hfind⟩, hvisb⟩, rfl, rfl⟩
        exact ⟨rfl, ⟨pids, pid, rfl, hpid, hfind⟩, hvisb⟩
      · rintro ⟨rfl, ⟨pids', pid, hpids', hpid, hfind⟩, hvisb⟩
        cases hpids'
        exact ⟨q, ⟨⟨pid, hpid, hfind⟩, hvisb⟩, rfl, rfl⟩

/-- Membership in the collected (pre-sort) feed list. -/
theorem mem_feedCollected {s : SocialNetworkState} {cid : Option Nat}
    {q : Post} {prof : UserProfile} :
    (q, prof) ∈ feedCollected s cid ↔
      ∃ u, u ∈ feedRelevantUsers s cid ∧ s.users.find? u = some prof ∧
        (∃ pids pid, s.user_posts.find? u = some pids ∧ pid ∈ pids ∧
          s.posts.find? pid = some q) ∧
        feedVisible s cid q = true := by
  unfold feedCollected
  rw [List.mem_flatMap]
  constructor
  · rintro ⟨u, hu, hmem⟩
    rcases mem_userFeedPosts.mp hmem with ⟨h1, h2, h3⟩
    exact ⟨u, mem_finsetAsc.mp hu, h1, h2, h3⟩
  · rintro ⟨u, hu, h1, h2, h3⟩
    exact ⟨u, mem_finsetAsc.mpr hu, mem_userFeedPosts.mpr ⟨h1, h2, h3⟩⟩

/-- The sorted feed holds the same entries as the collected feed. -/
theorem mem_map_snd_feedSorted {s : SocialNetworkState} {cid : Option Nat}
    {pa : Post × UserProfile} :
    pa ∈ (feedSorted s cid).map Prod.snd ↔ pa ∈ feedCollected s cid := by
  have hperm : ((feedSorted s cid).map Prod.snd).Perm
      (((feedCollected s cid).enum).map Prod.snd) :=
    (List.perm_insertionSort feedRel _).map _
  rw [List.enum_map_snd] at hperm
  exact hperm.mem_iff

/-- Every element of a list is the sole content of some one-element page. -/
theorem exists_page_singleton {α : Type} {l : List α} {x : α} (hx : x ∈ l) :
    ∃ i, (l.drop i).take 1 = [x] := by
  rcases List.getElem_of_mem hx with ⟨i, hi, rfl⟩
  exact ⟨i, by rw [List.drop_eq_getElem_cons hi]; rfl⟩

/-- Feed soundness: every returned entry comes from the collected list
(in particular it passed the visibility check). -/
theorem feed_mem_sound {s : SocialNetworkState} {caller : Nat}
    {limit offset : Option Nat} {fp : FeedPost}
    (h : fp ∈ get_social_feed s caller limit offset) :
    ∃ pa, pa ∈ feedCollected s
        (if caller = anonPrincipal then none else some caller) ∧
      fp = feedMk s (if caller = anonPrincipal then none else some caller)
        pa ∧
      feedVisible s (if caller = anonPrincipal then none else some caller)
        pa.1 = true := by
  rw [get_social_feed_eq] at h
  rcases List.mem_map.mp h with ⟨pa, hpa, rfl⟩
  have h1 : pa ∈ (feedSorted s _).map Prod.snd :=
    List.mem_of_mem_drop (List.mem_of_mem_take hpa)
  have h2 := mem_map_snd_feedSorted.mp h1
  rcases mem_feedCollected.mp h2 with ⟨u, _, _, _, hvisb⟩
  exact ⟨pa, h2, rfl, hvisb⟩

/-- Feed completeness: every collected entry appears on some page of the
feed (page size 1, suitable offset). -/
theorem feed_mem_complete {s : SocialNetworkState} {caller : Nat}
    {q : Post} {prof : UserProfile}
    (h : (q, prof) ∈ feedCollected s
      (if caller = anonPrincipal then none else some caller)) :
    ∃ off fp, fp ∈ get_social_feed s caller (some 1) (some off) ∧
      fp.post = q := by
  have h2 : (q, prof) ∈ (feedSorted s
      (if caller = anonPrincipal then none else some caller)).map Prod.snd :=
    mem_map_snd_feedSorted.mpr h
  rcases exists_page_singleton h2 with ⟨i, hi⟩
  refine ⟨i, feedMk s
    (if caller = anonPrincipal then none else some caller) (q, prof), ?_, rfl⟩
  rw [get_social_feed_eq]
  have hmin : min ((some 1).getD DEFAULT_FEED_LIMIT) MAX_FEED_LIMIT = 1 := by
    decide
  rw [show ((some i).getD 0) = i from rfl, hmin, hi]
  exact List.mem_singleton.mpr rfl

/-- C7: in every reachable state, a `FollowersOnly` post is absent from
the social feed of the anonymous viewer, present (on the page holding it)
for every viewer who follows the author, and present for the author's own
feed. -/
theorem C7_followersonly_feed (s : SocialNetworkState) (hr : Reachable s)
    (pid : Nat) (p : Post) (hfind : s.posts.find? pid = some p)
    (hvis : p.visibility = .FollowersOnly) :
    (∀ lim off fp, fp ∈ get_social_feed s anonPrincipal lim off →
      fp.post ≠ p) ∧
    (∀ v, v ≠ anonPrincipal → p.author_id ∈ s.followingOf v →
      ∃ off fp, fp ∈ get_social_feed s v (some 1) (some off) ∧
        fp.post = p) ∧
    (p.author_id ≠ anonPrincipal →
      ∃ off fp, fp ∈ get_social_feed s p.author_id (some 1) (some off) ∧
        fp.post = p) := by
  have hinv := inv_reachable hr
  have hprof : ∃ prof, s.users.find? p.author_id = some prof := by
    have := hinv.authorHasProfile pid p hfind
    exact Option.isSome_iff_exists.mp this
  rcases hprof with ⟨prof, hprofeq⟩
  have hpids : ∃ pids, s.user_posts.find? p.author_id = some pids ∧
      pid ∈ pids := by
    have hidx := hinv.postsIndexed pid p hfind
    cases h2 : s.user_posts.find? p.author_id with
    | none => rw [h2] at hidx; simp at hidx
    | some pids => rw [h2] at hidx; exact ⟨pids, rfl, hidx⟩
  rcases hpids with ⟨pids, hpidseq, hpidmem⟩
  refine ⟨?_, ?_, ?_⟩
  · intro lim off fp hfp hpe
    rcases feed_mem_sound hfp with ⟨pa, _, rfl, hvisb⟩
    have hpa : pa.1 = p := hpe
    rw [hpa] at hvisb
    rw [show (if anonPrincipal = anonPrincipal then (none : Option Nat)
        else some anonPrincipal) = none from rfl] at hvisb
    unfold feedVisible at hvisb
    rw [hvis] at hvisb
    simp at hvisb
  · intro v hv hfol
    have hcid : (if v = anonPrincipal then (none : Option Nat) else some v) =
        some v := if_neg hv
    have hvisb : feedVisible s (some v) p = true := by
      unfold feedVisible
      rw [hvis]
      have : v ∈ s.followersOf p.author_id := (hinv.symm v p.author_id).mp hfol
      simp [this]
    have hcol : (p, prof) ∈ feedCollected s (some v) := by
      refine mem_feedCollected.mpr ⟨p.author_id, ?_, hprofeq,
        ⟨pids, pid, hpidseq, hpidmem, hfind⟩, hvisb⟩
      unfold feedRelevantUsers
      rcases eq_or_ne p.author_id v with heq | hne
      · rw [heq]
        exact Finset.mem_insert_self v _
      · refine Finset.mem_insert_of_mem (Finset.mem_filter.mpr ⟨hfol, ?_⟩)
        rw [hinv.blockedEmpty v]
        simp
    rw [← hcid] at hcol
    exact feed_mem_complete hcol
  · intro hX
    have hcid : (if p.author_id = anonPrincipal then (none : Option Nat)
        else some p.author_id) = some p.author_id := if_neg hX
    have hvisb : feedVisible s (some p.author_id) p = true := by
      unfold feedVisible
      rw [hvis]
      simp
    have hcol : (p, prof) ∈ feedCollected s (some p.author_id) := by
      refine mem_feedCollected.mpr ⟨p.author_id, ?_, hprofeq,
        ⟨pids, pid, hpidseq, hpidmem, hfind⟩, hvisb⟩
      unfold feedRelevantUsers
      exact Finset.mem_insert_self _ _
    rw [← hcid] at hcol
    exact feed_mem_complete hcol

theorem C7_followersonly_feed_witness :
    (∀ lim off fp, fp ∈ get_social_feed stateC3 anonPrincipal lim off →
      fp.post ≠ (stateC3.posts.find? 0).getD
        { id := 0, author_id := 0, content := "", created_at := 0,
          updated_at := 0, like_count := 0, comment_count := 0,
          visibility := .Public, comments_count := 0, likes_count := 0,
          reposts_count := 0, tips_received := 0, edited_at := none }) ∧
      ∃ off fp, fp ∈ get_social_feed stateC3 1 (some 1) (some off) ∧
        fp.post = (stateC3.posts.find? 0).getD
          { id := 0, author_id := 0, content := "", created_at := 0,
            updated_at := 0, like_count := 0, comment_count := 0,
            visibility := .Public, comments_count := 0, likes_count := 0,
            reposts_count := 0, tips_received := 0, edited_at := none } := by
  have h := C7_followersonly_feed stateC3 reachable_stateC3 0
    ((stateC3.posts.find? 0).getD
      { id := 0, author_id := 0, content := "", created_at := 0,
        updated_at := 0, like_count := 0, comment_count := 0,
        visibility := .Public, comments_count := 0, likes_count := 0,
        reposts_count := 0, tips_received := 0, edited_at := none })
    (by decide) (by decide)
  exact ⟨h.1, h.2.1 1 (by decide) (by decide)⟩

/-- The feed order claimed by the spec (for comparison with the
implementation): created_at descending, ties broken by ascending
`PostId`. -/
def specFeedRel (a b : Post) : Prop :=
  b.created_at < a.created_at ∨ (a.created_at = b.created_at ∧ a.id ≤ b.id)

instance : DecidableRel specFeedRel := fun a b => by
  unfold specFeedRel; infer_instance

instance : IsTotal Post specFeedRel where
  total a b := by
    unfold specFeedRel
    rcases Nat.lt_trichotomy a.created_at b.created_at with h | h | h
    · exact Or.inr (Or.inl h)
    · rcases Nat.le_total a.id b.id with h' | h'
      · exact Or.inl (Or.inr ⟨h, h'⟩)
      · exact Or.inr (Or.inr ⟨h.symm, h'⟩)
    · exact Or.inl (Or.inl h)

instance : IsTrans Post specFeedRel where
  trans a b c hab hbc := by
    unfold specFeedRel at *
    rcases hab with h1 | ⟨h1, h1'⟩ <;> rcases hbc with h2 | ⟨h2, h2'⟩
    · exact Or.inl (h2.trans h1)
    · exact Or.inl (h2 ▸ h1)
    · exact Or.inl (h1 ▸ h2)
    · exact Or.inr ⟨h1.trans h2, h1'.trans h2'⟩

/-- The feed page as the spec describes it (same candidate set and
visibility filter, but sorted by created_at descending with ties broken
by ascending PostId). -/
def specFeedPage (s : SocialNetworkState) (caller : Nat)
    (limit offset : Option Nat) : List Post :=
  let limit := min (limit.getD DEFAULT_FEED_LIMIT) MAX_FEED_LIMIT
  let offset := offset.getD 0
  let caller_id : Option Nat :=
    if caller = anonPrincipal then none else some caller
  (((((feedCollected s caller_id).map Prod.fst).insertionSort
      specFeedRel).drop offset).take limit)

theorem reachable_stateC8b : Reachable stateC8b :=
  (Reachable.init.step
    (Step.create_user_profile initState 1 "alice" none none 5)).step
    (Step.create_user_profile stateC8a 2 "bob" none none 6)

/-- The C4 counterexample run: both users have profiles; user 2 posts at
t = 100 (post id 0), then user 1 posts at t = 100 (post id 1). -/
def stateC4a : SocialNetworkState :=
  (create_post stateC8b 2 "hello" (some .Public) 100).1

def stateC4 : SocialNetworkState :=
  (create_post stateC4a 1 "hello" (some .Public) 100).1

theorem reachable_stateC4 : Reachable stateC4 :=
  (reachable_stateC8b.step
    (Step.create_post stateC8b 2 "hello" (some .Public) 100)).step
    (Step.create_post stateC4a 1 "hello" (some .Public) 100)

/-- C4 as stated is false: in the reachable state `stateC4`, posts 0 and 1
have equal `created_at`, and the anonymous feed returns them as [1, 0]
(stable order of the author traversal, authors ascending) while the
claimed tie-break (ascending PostId) demands [0, 1]. -/
theorem C4_counterexample :
    Reachable stateC4 ∧
      ((stateC4.posts.find? 0).map (·.created_at) = some 100 ∧
        (stateC4.posts.find? 1).map (·.created_at) = some 100) ∧
      (get_social_feed stateC4 anonPrincipal none none).map (·.post.id) =
        [1, 0] ∧
      (specFeedPage stateC4 anonPrincipal none none).map (·.id) = [0, 1] ∧
      (get_social_feed stateC4 anonPrincipal none none).map (·.post.id) ≠
        (specFeedPage stateC4 anonPrincipal none none).map (·.id) :=
  ⟨reachable_stateC4, by decide, by decide, by decide, by decide⟩

/-- C4 amended: the feed is sorted by `created_at` descending with ties
broken by the stable traversal order (ascending author id, then the
author's post-list order) — not by ascending PostId; the page is the
offset/limit window with the limit capped at `MAX_FEED_LIMIT = 50` (so
`limit = 1000` yields at most 50 entries); the entries are exactly the
visibility-passing collected posts (soundness and completeness below). -/
theorem C4_amended (s : SocialNetworkState) (caller : Nat)
    (limit offset : Option Nat) :
    (get_social_feed s caller limit offset).length ≤
      min (limit.getD DEFAULT_FEED_LIMIT) MAX_FEED_LIMIT ∧
    (limit = some 1000 →
      (get_social_feed s caller limit offset).length ≤ 50) ∧
    List.Pairwise (fun fp1 fp2 : FeedPost =>
      fp2.post.created_at ≤ fp1.post.created_at)
      (get_social_feed s caller limit offset) ∧
    (∀ fp ∈ get_social_feed s caller limit offset,
      ∃ pa, pa ∈ feedCollected s
          (if caller = anonPrincipal then none else some caller) ∧
        fp.post = pa.1 ∧
        feedVisible s (if caller = anonPrincipal then none else some caller)
          pa.1 = true) ∧
    (∀ (q : Post) (prof : UserProfile),
      (q, prof) ∈ feedCollected s
        (if caller = anonPrincipal then none else some caller) →
      ∃ off fp, fp ∈ get_social_feed s caller (some 1) (some off) ∧
        fp.post = q) ∧
    List.Sorted feedRel (feedSorted s
      (if caller = anonPrincipal then none else some caller)) := by
  have hlen : (get_social_feed s caller limit offset).length ≤
      min (limit.getD DEFAULT_FEED_LIMIT) MAX_FEED_LIMIT := by
    rw [get_social_feed_eq, List.length_map]
    exact List.length_take_le _ _
  have hsorted : List.Sorted feedRel (feedSorted s
      (if caller = anonPrincipal then none else some caller)) :=
    List.sorted_insertionSort _ _
  refine ⟨hlen, ?_, ?_, ?_, ?_, hsorted⟩
  · rintro rfl
    exact hlen.trans (by decide)
  · have h1 : List.Pairwise (fun a b : Post × UserProfile =>
        b.1.created_at ≤ a.1.created_at)
        ((feedSorted s (if caller = anonPrincipal then none
          else some caller)).map Prod.snd) := by
      rw [List.pairwise_map]
      refine hsorted.imp ?_
      rintro a b (h | ⟨h, -⟩)
      · exact le_of_lt h
      · exact le_of_eq h.symm
    have h2 : List.Pairwise (fun a b : Post × UserProfile =>
        b.1.created_at ≤ a.1.created_at)
        ((((feedSorted s (if caller = anonPrincipal then none
          else some caller)).map Prod.snd).drop (offset.getD 0)).take
            (min (limit.getD DEFAULT_FEED_LIMIT) MAX_FEED_LIMIT)) :=
      h1.sublist ((List.take_sublist _ _).trans (List.drop_sublist _ _))
    rw [get_social_feed_eq, List.pairwise_map]
    exact h2
  · intro fp hfp
    rcases feed_mem_sound hfp with ⟨pa, hpa, rfl, hvisb⟩
    exact ⟨pa, hpa, rfl, hvisb⟩
  · intro q prof hq
    exact feed_mem_complete hq

theorem C4_amended_witness :
    (get_social_feed stateC4 anonPrincipal (some 1000) none).length ≤ 50 ∧
      ∃ off fp, fp ∈ get_social_feed stateC4 anonPrincipal (some 1)
          (some off) ∧
        fp.post = (stateC4.posts.find? 0).getD
          { id := 0, author_id := 0, content := "", created_at := 0,
            updated_at := 0, like_count := 0, comment_count := 0,
            visibility := .Public, comments_count := 0, likes_count := 0,
            reposts_count := 0, tips_received := 0, edited_at := none } := by
  refine ⟨(C4_amended stateC4 anonPrincipal (some 1000) none).2.1 rfl, ?_⟩
  refine (C4_amended stateC4 anonPrincipal (some 1) none).2.2.2.2.1
    ((stateC4.posts.find? 0).getD
      { id := 0, author_id := 0, content := "", created_at := 0,
        updated_at := 0, like_count := 0, comment_count := 0,
        visibility := .Public, comments_count := 0, likes_count := 0,
        reposts_count := 0, tips_received := 0, edited_at := none })
    ((stateC4.users.find? 2).getD profBobC8) (by decide)

end DeCentra
